import Mathlib

/-!
# Lifecycle orchestration of the VPN engines

A shallow embedding of the three engine classes of the repository
(`SingBoxEngine`, `LibXrayEngine`, `V2RayEngine`), of the engine factory and
of the small value types they use.

The engines drive three external collaborators: the platform interface, the
SOCKS driver and the protocol core.  Their code is not part of the
orchestration layer, so they are represented by an oracle `Env`: every
answer a collaborator gives is a function of the history of calls made so
far.  The history is a chronological list of `Event`s; each lifecycle method
returns, next to its C++ return value and the new member values, the list of
events it produced.  `is_running()` and `get_version()` are `const`
observers of a collaborator: they read the history and leave no event.
-/

namespace vpnclient_engine

/-! ## Value types of `platform/i_platform_interface.h` -/

namespace platform

/-- Options of the TUN device (`struct TunOptions`). -/
structure TunOptions where
  mtu : Int := 1500
  tun_name : String := "tun0"
  ipv4_address : String := ""
  ipv4_netmask : String := ""
  ipv4_gateway : String := ""
  ipv6_address : String := ""
  ipv6_prefix : Int := 64
  dns_server : String := ""
  dns_servers : List String := []
  auto_route : Bool := true
  strict_route : Bool := false
  enable_ipv6 : Bool := false
  enable_per_app_proxy : Bool := false
  include_packages : List String := []
  exclude_packages : List String := []
  deriving DecidableEq, Repr

/-- Handle of an open TUN device (`struct TunHandle`). -/
structure TunHandle where
  fd : Int := -1
  platform : String := ""
  deriving DecidableEq, Repr

/-- The handle is valid when its descriptor is not negative:
`bool isValid() const { return fd >= 0; }`. -/
def TunHandle.isValid (h : TunHandle) : Bool := decide (h.fd ≥ 0)

end platform

open platform

/-! ## Value types of `engine/unified_engine.h` -/

namespace engine

/-- Connection status (`enum class ConnectionStatus`). -/
inductive ConnectionStatus
  | DISCONNECTED
  | CONNECTING
  | CONNECTED
  | DISCONNECTING
  | ERROR
  deriving DecidableEq, Repr

/-- Core selector (`enum class EngineConfig::CoreType`).  A C++ enumeration
can carry any value of its underlying integer type, so the selector is its
underlying value; the four enumerators are the values 0 to 3. -/
structure EngineConfig.CoreType where
  raw : Int
  deriving DecidableEq, Repr

def EngineConfig.CoreType.SINGBOX : EngineConfig.CoreType := ⟨0⟩
def EngineConfig.CoreType.LIBXRAY : EngineConfig.CoreType := ⟨1⟩
def EngineConfig.CoreType.V2RAY : EngineConfig.CoreType := ⟨2⟩
def EngineConfig.CoreType.WIREGUARD : EngineConfig.CoreType := ⟨3⟩

/-- Driver selector of the configuration (`enum class EngineConfig::DriverType`). -/
inductive EngineConfig.DriverType
  | NONE
  | HEV_SOCKS5
  | TUN2SOCKS
  deriving DecidableEq, Repr

/-- Engine configuration (`struct EngineConfig`).  A `std::function` member
is represented by whether it holds a target: the engines only test it and
call it. -/
structure EngineConfig where
  core_type : EngineConfig.CoreType := ⟨0⟩
  config_json : String := ""
  tun_options : TunOptions := {}
  use_native_tun : Bool := false
  driver_type : EngineConfig.DriverType := EngineConfig.DriverType.NONE
  log_callback : Bool := false
  status_callback : Bool := false
  stats_callback : Bool := false
  deriving DecidableEq, Repr

end engine

open engine

/-! ## Collaborator types declared outside the orchestration layer -/

/-- Modelled from the spec: the driver variant enumeration of
`vpnclient_engine.h` (`vpnclient_engine::DriverType`, also reached as
`drivers::DriverType`), whose header is missing; the engines use its two
enumerators `HEV_SOCKS5` and `TUN2SOCKS`. -/
inductive DriverType
  | HEV_SOCKS5
  | TUN2SOCKS
  deriving DecidableEq, Repr

/-- Modelled from the spec: the driver configuration `DriverConfig` of the
missing header `vpnclient_engine.h`, with the fields the engines assign. -/
structure DriverConfig where
  type : DriverType
  config_json : String
  mtu : Int
  tun_name : String
  tun_address : String
  tun_gateway : String
  tun_netmask : String
  dns_server : String
  deriving DecidableEq, Repr

/-- Modelled from the spec: the core configuration `CoreConfig` of the missing
core headers, with the two fields the engines assign. -/
structure CoreConfig where
  config_json : String
  enable_logging : Bool
  deriving DecidableEq, Repr

/-- One observable action of an engine on its surroundings: a call of a
platform, driver or core operation, with its arguments and its answer, or a
call of the status callback.  Platform objects are told apart by a number. -/
inductive Event
  | checkPrivileges (p : Nat) (ok : Bool)
  | openTun (p : Nat) (options : TunOptions) (h : TunHandle)
  | closeTun (p : Nat) (h : TunHandle)
  | setupRoutes (p : Nat) (options : TunOptions) (ok : Bool)
  | driverCreate (ty : DriverType) (ok : Bool)
  | driverInitialize (cfg : DriverConfig) (ok : Bool)
  | driverStart (ok : Bool)
  | driverStop
  | coreNew
  | coreInitialize (cfg : CoreConfig) (ok : Bool)
  | coreStart (ok : Bool)
  | coreStop
  | status_callback (s : ConnectionStatus)
  deriving DecidableEq, Repr

/-- Modelled from the spec: the behaviour of the platform, driver and core
capabilities, whose implementations are outside the orchestration layer.
Each answer is a function of the history of events so far and of the
arguments.  `driverCreate` tells whether `DriverFactory::create` returns a
driver (`true`) or a null pointer. -/
structure Env where
  checkPrivileges : List Event → Nat → Bool
  openTun : List Event → Nat → TunOptions → TunHandle
  setupRoutes : List Event → Nat → TunOptions → Bool
  driverCreate : List Event → DriverType → Bool
  driverInitialize : List Event → DriverConfig → Bool
  driverStart : List Event → Bool
  driverIsRunning : List Event → Bool
  coreInitialize : List Event → CoreConfig → Bool
  coreStart : List Event → Bool
  coreIsRunning : List Event → Bool
  coreVersion : List Event → String

namespace engine

/-- The guarded callback call
`if (config_.status_callback) { config_.status_callback(status_); }`. -/
def notify (config : EngineConfig) (s : ConnectionStatus) : List Event :=
  if config.status_callback then [Event.status_callback s] else []

/-- The driver configuration both driver-based engines build in
`initialize` (the assignments to `driver_config`). -/
def driverConfigOf (config : EngineConfig) : DriverConfig :=
  { type := if config.driver_type = EngineConfig.DriverType.HEV_SOCKS5
      then DriverType.HEV_SOCKS5 else DriverType.TUN2SOCKS
    config_json := config.config_json
    mtu := config.tun_options.mtu
    tun_name := config.tun_options.tun_name
    tun_address := config.tun_options.ipv4_address
    tun_gateway := config.tun_options.ipv4_gateway
    tun_netmask := config.tun_options.ipv4_netmask
    dns_server := config.tun_options.dns_server }

/-- The core configuration every engine builds in `initialize`. -/
def coreConfigOf (config : EngineConfig) : CoreConfig :=
  { config_json := config.config_json, enable_logging := true }

/-- The optional `setupRoutes` call that ends a successful `initialize`. -/
def routeEvents (env : Env) (hist : List Event) (p : Nat) (config : EngineConfig) :
    List Event :=
  if config.tun_options.auto_route then
    [Event.setupRoutes p config.tun_options (env.setupRoutes hist p config.tun_options)]
  else []

/-! ## `LibXrayEngine` (`src/engines/libxray_engine.cpp`) -/

/-- Members of `class LibXrayEngine`.  `core_` and `driver_` are owning
pointers, null when `none`; a held driver is tagged with the variant it was
created as. -/
structure LibXrayEngine where
  platform_ : Option Nat := none
  core_ : Option Unit := none
  driver_ : Option DriverType := none
  tun_handle_ : TunHandle := {}
  status_ : ConnectionStatus := ConnectionStatus.DISCONNECTED
  config_ : EngineConfig := {}
  deriving DecidableEq, Repr

/-- The `switch (config.driver_type)` of `LibXrayEngine::initialize`. -/
def LibXrayEngine.driverTypeOf (config : EngineConfig) : DriverType :=
  match config.driver_type with
  | EngineConfig.DriverType.HEV_SOCKS5 => DriverType.HEV_SOCKS5
  | EngineConfig.DriverType.TUN2SOCKS => DriverType.TUN2SOCKS
  | _ => DriverType.HEV_SOCKS5

/-- `LibXrayEngine::isRunning`. -/
def LibXrayEngine.isRunning (env : Env) (log : List Event) (self : LibXrayEngine) : Bool :=
  self.core_.isSome && env.coreIsRunning log
    && self.driver_.isSome && env.driverIsRunning log
    && self.tun_handle_.isValid

/-- `LibXrayEngine::initialize`: return value, members afterwards, events of
the call.  `log` is the history before the call. -/
def LibXrayEngine.initialize (env : Env) (log : List Event) (self : LibXrayEngine)
    (config : EngineConfig) (platform : Option Nat) :
    Bool × LibXrayEngine × List Event :=
  match platform with
  | none => (false, self, [])
  | some p =>
    let s1 := { self with config_ := config, platform_ := some p }
    let okPriv := env.checkPrivileges log p
    let t1 := [Event.checkPrivileges p okPriv]
    if !okPriv then (false, s1, t1) else
    let h := env.openTun (log ++ t1) p config.tun_options
    let t2 := t1 ++ [Event.openTun p config.tun_options h]
    let s2 := { s1 with tun_handle_ := h }
    if !h.isValid then (false, s2, t2) else
    let driver_config := driverConfigOf config
    let driver_type := LibXrayEngine.driverTypeOf config
    let created := env.driverCreate (log ++ t2) driver_type
    let t3 := t2 ++ [Event.driverCreate driver_type created]
    if !created then
      (false, { s2 with driver_ := none }, t3 ++ [Event.closeTun p h])
    else
    let s3 := { s2 with driver_ := some driver_type }
    let okDrv := env.driverInitialize (log ++ t3) driver_config
    let t4 := t3 ++ [Event.driverInitialize driver_config okDrv]
    if !okDrv then (false, s3, t4 ++ [Event.closeTun p h]) else
    let core_config := coreConfigOf config
    let t5 := t4 ++ [Event.coreNew]
    let s4 := { s3 with core_ := some () }
    let okCore := env.coreInitialize (log ++ t5) core_config
    let t6 := t5 ++ [Event.coreInitialize core_config okCore]
    if !okCore then
      (false, { s4 with driver_ := none }, t6 ++ [Event.closeTun p h])
    else
    (true, { s4 with status_ := ConnectionStatus.DISCONNECTED },
      t6 ++ routeEvents env (log ++ t6) p config)

/-- `LibXrayEngine::start`. -/
def LibXrayEngine.start (env : Env) (log : List Event) (self : LibXrayEngine) :
    Bool × LibXrayEngine × List Event :=
  if !self.core_.isSome || !self.driver_.isSome || !self.tun_handle_.isValid then
    (false, self, [])
  else
    let t1 := notify self.config_ ConnectionStatus.CONNECTING
    let okDrv := env.driverStart (log ++ t1)
    let t2 := t1 ++ [Event.driverStart okDrv]
    if !okDrv then
      (false, { self with status_ := ConnectionStatus.ERROR },
        t2 ++ notify self.config_ ConnectionStatus.ERROR)
    else
    let okCore := env.coreStart (log ++ t2)
    let t3 := t2 ++ [Event.coreStart okCore]
    if !okCore then
      (false, { self with status_ := ConnectionStatus.ERROR },
        t3 ++ [Event.driverStop] ++ notify self.config_ ConnectionStatus.ERROR)
    else
    (true, { self with status_ := ConnectionStatus.CONNECTED },
      t3 ++ notify self.config_ ConnectionStatus.CONNECTED)

/-- `LibXrayEngine::stop`. -/
def LibXrayEngine.stop (env : Env) (log : List Event) (self : LibXrayEngine) :
    LibXrayEngine × List Event :=
  if LibXrayEngine.isRunning env log self then
    let t1 := notify self.config_ ConnectionStatus.DISCONNECTING
    let t2 := if self.core_.isSome then t1 ++ [Event.coreStop] else t1
    let t3 := if self.driver_.isSome then t2 ++ [Event.driverStop] else t2
    let closes := self.platform_.isSome && self.tun_handle_.isValid
    let t4 := match self.platform_ with
      | some p => if self.tun_handle_.isValid then t3 ++ [Event.closeTun p self.tun_handle_] else t3
      | none => t3
    ({ self with
        core_ := none
        driver_ := none
        tun_handle_ := if closes then { self.tun_handle_ with fd := -1 } else self.tun_handle_
        status_ := ConnectionStatus.DISCONNECTED },
      t4 ++ notify self.config_ ConnectionStatus.DISCONNECTED)
  else (self, [])

/-- `LibXrayEngine::getStatus`. -/
def LibXrayEngine.getStatus (self : LibXrayEngine) : ConnectionStatus := self.status_

/-- `LibXrayEngine::getName`. -/
def LibXrayEngine.getName (_self : LibXrayEngine) : String := "LibXray"

/-- `LibXrayEngine::getVersion`. -/
def LibXrayEngine.getVersion (env : Env) (log : List Event) (self : LibXrayEngine) : String :=
  if self.core_.isSome then env.coreVersion log else "Unknown"

/-! ## `V2RayEngine` (`src/engines/v2ray_engine.cpp`) -/

/-- Members of `class V2RayEngine`. -/
structure V2RayEngine where
  platform_ : Option Nat := none
  core_ : Option Unit := none
  driver_ : Option DriverType := none
  tun_handle_ : TunHandle := {}
  status_ : ConnectionStatus := ConnectionStatus.DISCONNECTED
  config_ : EngineConfig := {}
  deriving DecidableEq, Repr

/-- `V2RayEngine::isRunning`. -/
def V2RayEngine.isRunning (env : Env) (log : List Event) (self : V2RayEngine) : Bool :=
  self.core_.isSome && env.coreIsRunning log
    && self.driver_.isSome && env.driverIsRunning log
    && self.tun_handle_.isValid

/-- `V2RayEngine::initialize`.  The driver is created from
`driver_config.type`. -/
def V2RayEngine.initialize (env : Env) (log : List Event) (self : V2RayEngine)
    (config : EngineConfig) (platform : Option Nat) :
    Bool × V2RayEngine × List Event :=
  match platform with
  | none => (false, self, [])
  | some p =>
    let s1 := { self with config_ := config, platform_ := some p }
    let okPriv := env.checkPrivileges log p
    let t1 := [Event.checkPrivileges p okPriv]
    if !okPriv then (false, s1, t1) else
    let h := env.openTun (log ++ t1) p config.tun_options
    let t2 := t1 ++ [Event.openTun p config.tun_options h]
    let s2 := { s1 with tun_handle_ := h }
    if !h.isValid then (false, s2, t2) else
    let driver_config := driverConfigOf config
    let created := env.driverCreate (log ++ t2) driver_config.type
    let t3 := t2 ++ [Event.driverCreate driver_config.type created]
    if !created then
      (false, { s2 with driver_ := none }, t3 ++ [Event.closeTun p h])
    else
    let s3 := { s2 with driver_ := some driver_config.type }
    let okDrv := env.driverInitialize (log ++ t3) driver_config
    let t4 := t3 ++ [Event.driverInitialize driver_config okDrv]
    if !okDrv then (false, s3, t4 ++ [Event.closeTun p h]) else
    let core_config := coreConfigOf config
    let t5 := t4 ++ [Event.coreNew]
    let s4 := { s3 with core_ := some () }
    let okCore := env.coreInitialize (log ++ t5) core_config
    let t6 := t5 ++ [Event.coreInitialize core_config okCore]
    if !okCore then
      (false, { s4 with driver_ := none }, t6 ++ [Event.closeTun p h])
    else
    (true, { s4 with status_ := ConnectionStatus.DISCONNECTED },
      t6 ++ routeEvents env (log ++ t6) p config)

/-- `V2RayEngine::start`. -/
def V2RayEngine.start (env : Env) (log : List Event) (self : V2RayEngine) :
    Bool × V2RayEngine × List Event :=
  if !self.core_.isSome || !self.driver_.isSome || !self.tun_handle_.isValid then
    (false, self, [])
  else
    let t1 := notify self.config_ ConnectionStatus.CONNECTING
    let okDrv := env.driverStart (log ++ t1)
    let t2 := t1 ++ [Event.driverStart okDrv]
    if !okDrv then
      (false, { self with status_ := ConnectionStatus.ERROR },
        t2 ++ notify self.config_ ConnectionStatus.ERROR)
    else
    let okCore := env.coreStart (log ++ t2)
    let t3 := t2 ++ [Event.coreStart okCore]
    if !okCore then
      (false, { self with status_ := ConnectionStatus.ERROR },
        t3 ++ [Event.driverStop] ++ notify self.config_ ConnectionStatus.ERROR)
    else
    (true, { self with status_ := ConnectionStatus.CONNECTED },
      t3 ++ notify self.config_ ConnectionStatus.CONNECTED)

/-- `V2RayEngine::stop`. -/
def V2RayEngine.stop (env : Env) (log : List Event) (self : V2RayEngine) :
    V2RayEngine × List Event :=
  if V2RayEngine.isRunning env log self then
    let t1 := notify self.config_ ConnectionStatus.DISCONNECTING
    let t2 := if self.core_.isSome then t1 ++ [Event.coreStop] else t1
    let t3 := if self.driver_.isSome then t2 ++ [Event.driverStop] else t2
    let closes := self.platform_.isSome && self.tun_handle_.isValid
    let t4 := match self.platform_ with
      | some p => if self.tun_handle_.isValid then t3 ++ [Event.closeTun p self.tun_handle_] else t3
      | none => t3
    ({ self with
        core_ := none
        driver_ := none
        tun_handle_ := if closes then { self.tun_handle_ with fd := -1 } else self.tun_handle_
        status_ := ConnectionStatus.DISCONNECTED },
      t4 ++ notify self.config_ ConnectionStatus.DISCONNECTED)
  else (self, [])

/-- `V2RayEngine::getStatus`. -/
def V2RayEngine.getStatus (self : V2RayEngine) : ConnectionStatus := self.status_

/-- `V2RayEngine::getName`. -/
def V2RayEngine.getName (_self : V2RayEngine) : String := "V2Ray"

/-- `V2RayEngine::getVersion`. -/
def V2RayEngine.getVersion (env : Env) (log : List Event) (self : V2RayEngine) : String :=
  if self.core_.isSome then env.coreVersion log else "Unknown"

/-! ## `SingBoxEngine` (`src/engines/singbox_engine.cpp`) -/

/-- Members of `class SingBoxEngine`; the class has no driver member. -/
structure SingBoxEngine where
  platform_ : Option Nat := none
  core_ : Option Unit := none
  tun_handle_ : TunHandle := {}
  status_ : ConnectionStatus := ConnectionStatus.DISCONNECTED
  config_ : EngineConfig := {}
  deriving DecidableEq, Repr

/-- `SingBoxEngine::isRunning`. -/
def SingBoxEngine.isRunning (env : Env) (log : List Event) (self : SingBoxEngine) : Bool :=
  self.core_.isSome && env.coreIsRunning log && self.tun_handle_.isValid

/-- `SingBoxEngine::initialize`. -/
def SingBoxEngine.initialize (env : Env) (log : List Event) (self : SingBoxEngine)
    (config : EngineConfig) (platform : Option Nat) :
    Bool × SingBoxEngine × List Event :=
  match platform with
  | none => (false, self, [])
  | some p =>
    let s1 := { self with config_ := config, platform_ := some p }
    let okPriv := env.checkPrivileges log p
    let t1 := [Event.checkPrivileges p okPriv]
    if !okPriv then (false, s1, t1) else
    let h := env.openTun (log ++ t1) p config.tun_options
    let t2 := t1 ++ [Event.openTun p config.tun_options h]
    let s2 := { s1 with tun_handle_ := h }
    if !h.isValid then (false, s2, t2) else
    let core_config := coreConfigOf config
    let t3 := t2 ++ [Event.coreNew]
    let s3 := { s2 with core_ := some () }
    let okCore := env.coreInitialize (log ++ t3) core_config
    let t4 := t3 ++ [Event.coreInitialize core_config okCore]
    if !okCore then (false, s3, t4 ++ [Event.closeTun p h]) else
    (true, { s3 with status_ := ConnectionStatus.DISCONNECTED },
      t4 ++ routeEvents env (log ++ t4) p config)

/-- `SingBoxEngine::start`. -/
def SingBoxEngine.start (env : Env) (log : List Event) (self : SingBoxEngine) :
    Bool × SingBoxEngine × List Event :=
  if !self.core_.isSome || !self.tun_handle_.isValid then
    (false, self, [])
  else
    let t1 := notify self.config_ ConnectionStatus.CONNECTING
    let okCore := env.coreStart (log ++ t1)
    let t2 := t1 ++ [Event.coreStart okCore]
    if !okCore then
      (false, { self with status_ := ConnectionStatus.ERROR },
        t2 ++ notify self.config_ ConnectionStatus.ERROR)
    else
    (true, { self with status_ := ConnectionStatus.CONNECTED },
      t2 ++ notify self.config_ ConnectionStatus.CONNECTED)

/-- `SingBoxEngine::stop`. -/
def SingBoxEngine.stop (env : Env) (log : List Event) (self : SingBoxEngine) :
    SingBoxEngine × List Event :=
  if self.core_.isSome && SingBoxEngine.isRunning env log self then
    let t1 := notify self.config_ ConnectionStatus.DISCONNECTING
    let t2 := t1 ++ [Event.coreStop]
    let closes := self.platform_.isSome && self.tun_handle_.isValid
    let t3 := match self.platform_ with
      | some p => if self.tun_handle_.isValid then t2 ++ [Event.closeTun p self.tun_handle_] else t2
      | none => t2
    ({ self with
        core_ := none
        tun_handle_ := if closes then { self.tun_handle_ with fd := -1 } else self.tun_handle_
        status_ := ConnectionStatus.DISCONNECTED },
      t3 ++ notify self.config_ ConnectionStatus.DISCONNECTED)
  else (self, [])

/-- `SingBoxEngine::getStatus`. -/
def SingBoxEngine.getStatus (self : SingBoxEngine) : ConnectionStatus := self.status_

/-- `SingBoxEngine::getName`. -/
def SingBoxEngine.getName (_self : SingBoxEngine) : String := "SingBox"

/-- `SingBoxEngine::getVersion`. -/
def SingBoxEngine.getVersion (env : Env) (log : List Event) (self : SingBoxEngine) : String :=
  if self.core_.isSome then env.coreVersion log else "Unknown"

/-! ## The interface `IUnifiedEngine` -/

/-- An object behind `IUnifiedEngine`: one of the three engine classes. -/
inductive IUnifiedEngine
  | singbox (e : SingBoxEngine)
  | libxray (e : LibXrayEngine)
  | v2ray (e : V2RayEngine)
  deriving DecidableEq, Repr

/-- Virtual dispatch of `initialize`. -/
def IUnifiedEngine.initialize (env : Env) (log : List Event) (self : IUnifiedEngine)
    (config : EngineConfig) (platform : Option Nat) :
    Bool × IUnifiedEngine × List Event :=
  match self with
  | IUnifiedEngine.singbox e =>
    let r := SingBoxEngine.initialize env log e config platform
    (r.1, IUnifiedEngine.singbox r.2.1, r.2.2)
  | IUnifiedEngine.libxray e =>
    let r := LibXrayEngine.initialize env log e config platform
    (r.1, IUnifiedEngine.libxray r.2.1, r.2.2)
  | IUnifiedEngine.v2ray e =>
    let r := V2RayEngine.initialize env log e config platform
    (r.1, IUnifiedEngine.v2ray r.2.1, r.2.2)

/-- Virtual dispatch of `start`. -/
def IUnifiedEngine.start (env : Env) (log : List Event) (self : IUnifiedEngine) :
    Bool × IUnifiedEngine × List Event :=
  match self with
  | IUnifiedEngine.singbox e =>
    let r := SingBoxEngine.start env log e
    (r.1, IUnifiedEngine.singbox r.2.1, r.2.2)
  | IUnifiedEngine.libxray e =>
    let r := LibXrayEngine.start env log e
    (r.1, IUnifiedEngine.libxray r.2.1, r.2.2)
  | IUnifiedEngine.v2ray e =>
    let r := V2RayEngine.start env log e
    (r.1, IUnifiedEngine.v2ray r.2.1, r.2.2)

/-- Virtual dispatch of `stop`. -/
def IUnifiedEngine.stop (env : Env) (log : List Event) (self : IUnifiedEngine) :
    IUnifiedEngine × List Event :=
  match self with
  | IUnifiedEngine.singbox e =>
    let r := SingBoxEngine.stop env log e
    (IUnifiedEngine.singbox r.1, r.2)
  | IUnifiedEngine.libxray e =>
    let r := LibXrayEngine.stop env log e
    (IUnifiedEngine.libxray r.1, r.2)
  | IUnifiedEngine.v2ray e =>
    let r := V2RayEngine.stop env log e
    (IUnifiedEngine.v2ray r.1, r.2)

/-- Virtual dispatch of `isRunning`. -/
def IUnifiedEngine.isRunning (env : Env) (log : List Event) (self : IUnifiedEngine) : Bool :=
  match self with
  | IUnifiedEngine.singbox e => SingBoxEngine.isRunning env log e
  | IUnifiedEngine.libxray e => LibXrayEngine.isRunning env log e
  | IUnifiedEngine.v2ray e => V2RayEngine.isRunning env log e

/-- Virtual dispatch of `getStatus`. -/
def IUnifiedEngine.getStatus (self : IUnifiedEngine) : ConnectionStatus :=
  match self with
  | IUnifiedEngine.singbox e => e.getStatus
  | IUnifiedEngine.libxray e => e.getStatus
  | IUnifiedEngine.v2ray e => e.getStatus

/-- Virtual dispatch of `getName`. -/
def IUnifiedEngine.getName (self : IUnifiedEngine) : String :=
  match self with
  | IUnifiedEngine.singbox e => e.getName
  | IUnifiedEngine.libxray e => e.getName
  | IUnifiedEngine.v2ray e => e.getName

/-- Virtual dispatch of `getVersion`. -/
def IUnifiedEngine.getVersion (env : Env) (log : List Event) (self : IUnifiedEngine) : String :=
  match self with
  | IUnifiedEngine.singbox e => SingBoxEngine.getVersion env log e
  | IUnifiedEngine.libxray e => LibXrayEngine.getVersion env log e
  | IUnifiedEngine.v2ray e => V2RayEngine.getVersion env log e

/-! ### Reading the members of an engine -/

/-- Whether the engine holds a core (`core_` is not null). -/
def IUnifiedEngine.hasCore (self : IUnifiedEngine) : Bool :=
  match self with
  | IUnifiedEngine.singbox e => e.core_.isSome
  | IUnifiedEngine.libxray e => e.core_.isSome
  | IUnifiedEngine.v2ray e => e.core_.isSome

/-- Whether the engine holds a driver (`driver_` is not null); the SingBox
engine has no such member and never holds one. -/
def IUnifiedEngine.hasDriver (self : IUnifiedEngine) : Bool :=
  match self with
  | IUnifiedEngine.singbox _ => false
  | IUnifiedEngine.libxray e => e.driver_.isSome
  | IUnifiedEngine.v2ray e => e.driver_.isSome

/-- The member `tun_handle_`. -/
def IUnifiedEngine.tunHandle (self : IUnifiedEngine) : TunHandle :=
  match self with
  | IUnifiedEngine.singbox e => e.tun_handle_
  | IUnifiedEngine.libxray e => e.tun_handle_
  | IUnifiedEngine.v2ray e => e.tun_handle_

/-- The member `platform_`. -/
def IUnifiedEngine.platform (self : IUnifiedEngine) : Option Nat :=
  match self with
  | IUnifiedEngine.singbox e => e.platform_
  | IUnifiedEngine.libxray e => e.platform_
  | IUnifiedEngine.v2ray e => e.platform_

/-- The member `config_`. -/
def IUnifiedEngine.config (self : IUnifiedEngine) : EngineConfig :=
  match self with
  | IUnifiedEngine.singbox e => e.config_
  | IUnifiedEngine.libxray e => e.config_
  | IUnifiedEngine.v2ray e => e.config_

/-- Whether the class of the engine has a driver member (LibXray, V2Ray). -/
def IUnifiedEngine.usesDriver (self : IUnifiedEngine) : Bool :=
  match self with
  | IUnifiedEngine.singbox _ => false
  | _ => true

/-- The engine with the status member replaced. -/
def IUnifiedEngine.withStatus (self : IUnifiedEngine) (s : ConnectionStatus) : IUnifiedEngine :=
  match self with
  | IUnifiedEngine.singbox e => IUnifiedEngine.singbox { e with status_ := s }
  | IUnifiedEngine.libxray e => IUnifiedEngine.libxray { e with status_ := s }
  | IUnifiedEngine.v2ray e => IUnifiedEngine.v2ray { e with status_ := s }

/-! ## The factory (`src/engine/unified_engine_factory.cpp`) -/

/-- `createSingBoxEngine`: a default-constructed `SingBoxEngine`. -/
def createSingBoxEngine : IUnifiedEngine := IUnifiedEngine.singbox {}

/-- `createLibXrayEngine`: a default-constructed `LibXrayEngine`. -/
def createLibXrayEngine : IUnifiedEngine := IUnifiedEngine.libxray {}

/-- `createV2RayEngine`: a default-constructed `V2RayEngine`. -/
def createV2RayEngine : IUnifiedEngine := IUnifiedEngine.v2ray {}

/-- `UnifiedEngineFactory::create`; `none` is the null pointer. -/
def UnifiedEngineFactory.create (type : EngineConfig.CoreType) : Option IUnifiedEngine :=
  if type = EngineConfig.CoreType.SINGBOX then some createSingBoxEngine
  else if type = EngineConfig.CoreType.LIBXRAY then some createLibXrayEngine
  else if type = EngineConfig.CoreType.V2RAY then some createV2RayEngine
  else none

/-- `UnifiedEngineFactory::requiresDriver`. -/
def UnifiedEngineFactory.requiresDriver (type : EngineConfig.CoreType) : Bool :=
  if type = EngineConfig.CoreType.SINGBOX then false
  else if type = EngineConfig.CoreType.LIBXRAY ∨ type = EngineConfig.CoreType.V2RAY then true
  else true

/-- `UnifiedEngineFactory::getRecommendedDriver`. -/
def UnifiedEngineFactory.getRecommendedDriver (type : EngineConfig.CoreType) :
    EngineConfig.DriverType :=
  if UnifiedEngineFactory.requiresDriver type then EngineConfig.DriverType.HEV_SOCKS5
  else EngineConfig.DriverType.NONE

/-! ## Sequences of lifecycle calls -/

/-- A lifecycle call made by the owner of an engine.  `init` is a call of
`initialize` with its two arguments (`none` is a null platform pointer). -/
inductive Call
  | init (config : EngineConfig) (platform : Option Nat)
  | start
  | stop
  deriving DecidableEq, Repr

/-- What is known after some calls: the engine, the whole history of events,
and the return values of the calls made, oldest first (`none` for `stop`,
which returns nothing). -/
structure Run where
  engine : IUnifiedEngine
  log : List Event
  results : List (Option Bool)
  deriving DecidableEq, Repr

/-- One lifecycle call on the engine of a run. -/
def Run.step (env : Env) (r : Run) (c : Call) : Run :=
  match c with
  | Call.init config platform =>
    let x := IUnifiedEngine.initialize env r.log r.engine config platform
    { engine := x.2.1, log := r.log ++ x.2.2, results := r.results ++ [some x.1] }
  | Call.start =>
    let x := IUnifiedEngine.start env r.log r.engine
    { engine := x.2.1, log := r.log ++ x.2.2, results := r.results ++ [some x.1] }
  | Call.stop =>
    let x := IUnifiedEngine.stop env r.log r.engine
    { engine := x.1, log := r.log ++ x.2, results := r.results ++ [none] }

/-- A finite sequence of lifecycle calls, made one after the other. -/
def Run.steps (env : Env) (r : Run) (cs : List Call) : Run :=
  cs.foldl (Run.step env) r

/-- The run that has made no call yet on engine `e`. -/
def Run.begin (e : IUnifiedEngine) : Run :=
  { engine := e, log := [], results := [] }

/-! ## Collaborators that report their own activity truthfully -/

/-- Whether the core object in use was started with success and not stopped
since: a new core object is not active, `stop()` ends the activity. -/
def coreActive (log : List Event) : Bool :=
  log.foldl (fun b e => match e with
    | Event.coreNew => false
    | Event.coreStop => false
    | Event.coreStart true => true
    | _ => b) false

/-- Whether the driver object in use was started with success and not
stopped since. -/
def driverActive (log : List Event) : Bool :=
  log.foldl (fun b e => match e with
    | Event.driverCreate _ _ => false
    | Event.driverStop => false
    | Event.driverStart true => true
    | _ => b) false

/-- Collaborators whose `is_running()` answer is true exactly between a
successful `start()` and the next `stop()`. -/
def WellBehaved (env : Env) : Prop :=
  ∀ log, env.coreIsRunning log = coreActive log ∧ env.driverIsRunning log = driverActive log

/-! ## Concrete collaborators used to exercise the engines -/

/-- Collaborators for which every step succeeds: privileges are granted,
`openTun` answers descriptor 3, drivers and cores initialise and start, and
`is_running()` is truthful. -/
def grantingEnv : Env :=
  { checkPrivileges := fun _ _ => true
    openTun := fun _ _ _ => { fd := 3, platform := "test" }
    setupRoutes := fun _ _ _ => true
    driverCreate := fun _ _ => true
    driverInitialize := fun _ _ => true
    driverStart := fun _ => true
    driverIsRunning := driverActive
    coreInitialize := fun _ _ => true
    coreStart := fun _ => true
    coreIsRunning := coreActive
    coreVersion := fun _ => "1.0" }

/-- As `grantingEnv`, but the core refuses to initialise. -/
def coreInitFailsEnv : Env :=
  { grantingEnv with coreInitialize := fun _ _ => false }

/-- As `grantingEnv`, but the driver refuses to initialise. -/
def driverInitFailsEnv : Env :=
  { grantingEnv with driverInitialize := fun _ _ => false }

/-- As `grantingEnv`, but the core refuses to start. -/
def coreStartFailsEnv : Env :=
  { grantingEnv with coreStart := fun _ => false }

/-- The handle `grantingEnv` answers to `openTun`. -/
def handle3 : TunHandle := { fd := 3, platform := "test" }

/-- A configuration that registers a status callback and is otherwise the
default one. -/
def callbackConfig : EngineConfig := { status_callback := true }

/-! ## Reading a list of events -/

/-- The `closeTun` calls of a list of events, in order: platform and handle. -/
def closeTunCalls (evs : List Event) : List (Nat × TunHandle) :=
  evs.filterMap (fun e => match e with
    | Event.closeTun p h => some (p, h)
    | _ => none)

/-- The number of core `initialize` calls in a list of events. -/
def coreInitializeCalls (evs : List Event) : Nat :=
  evs.countP (fun e => match e with
    | Event.coreInitialize _ _ => true
    | _ => false)

/-- The statuses passed to the status callback in a list of events, in order. -/
def statusCallbacks (evs : List Event) : List ConnectionStatus :=
  evs.filterMap (fun e => match e with
    | Event.status_callback s => some s
    | _ => none)

/-- Whether `openTun` is called in a list of events. -/
def callsOpenTun (evs : List Event) : Bool :=
  evs.any (fun e => match e with
    | Event.openTun _ _ _ => true
    | _ => false)

/-- The V2Ray engine as a successful `initialize` with `callbackConfig` on
platform 0 leaves it under `grantingEnv`. -/
def readyV2Ray : IUnifiedEngine :=
  IUnifiedEngine.v2ray
    { platform_ := some 0, core_ := some (), driver_ := some DriverType.TUN2SOCKS,
      tun_handle_ := handle3, config_ := callbackConfig }

/-- The SingBox engine as a successful `initialize` with `callbackConfig` on
platform 0 leaves it under `grantingEnv`. -/
def readySingBox : IUnifiedEngine :=
  IUnifiedEngine.singbox
    { platform_ := some 0, core_ := some (), tun_handle_ := handle3, config_ := callbackConfig }

/-! ## Destruction -/

/-- `SingBoxEngine::~SingBoxEngine`: the events of the destructor body
`if (isRunning()) { stop(); }`. -/
def SingBoxEngine.destructor (env : Env) (log : List Event) (self : SingBoxEngine) :
    List Event :=
  if SingBoxEngine.isRunning env log self then (SingBoxEngine.stop env log self).2 else []

/-- `LibXrayEngine::~LibXrayEngine`: the events of the destructor body. -/
def LibXrayEngine.destructor (env : Env) (log : List Event) (self : LibXrayEngine) :
    List Event :=
  if LibXrayEngine.isRunning env log self then (LibXrayEngine.stop env log self).2 else []

/-- `V2RayEngine::~V2RayEngine`: the events of the destructor body. -/
def V2RayEngine.destructor (env : Env) (log : List Event) (self : V2RayEngine) :
    List Event :=
  if V2RayEngine.isRunning env log self then (V2RayEngine.stop env log self).2 else []

/-- Virtual dispatch of the destructor. -/
def IUnifiedEngine.destructor (env : Env) (log : List Event) (self : IUnifiedEngine) :
    List Event :=
  match self with
  | IUnifiedEngine.singbox e => SingBoxEngine.destructor env log e
  | IUnifiedEngine.libxray e => LibXrayEngine.destructor env log e
  | IUnifiedEngine.v2ray e => V2RayEngine.destructor env log e

/-- The valid handles answered by `openTun` in a list of events, each with
the platform that answered it. -/
def openedHandles (evs : List Event) : List (Nat × TunHandle) :=
  evs.filterMap (fun e => match e with
    | Event.openTun p _ h => if h.isValid then some (p, h) else none
    | _ => none)

/-- As `grantingEnv`, but `openTun` answers an invalid handle once a device
has been opened before. -/
def reopenFailsEnv : Env :=
  { grantingEnv with
    openTun := fun log _ _ => if callsOpenTun log then {} else { fd := 3, platform := "test" } }

/-- Whether the status is Connected exactly when `isRunning()` is true. -/
def Run.statusAgrees (env : Env) (r : Run) : Bool :=
  decide (r.engine.getStatus = ConnectionStatus.CONNECTED)
    == IUnifiedEngine.isRunning env r.log r.engine

/-- Whether, in the sequence `cs` of calls made from run `r` on, every
`initialize` and every `start` is called while `isRunning()` is false. -/
def Run.callsWhileIdle (env : Env) : Run → List Call → Bool
  | _, [] => true
  | r, c :: cs =>
    (match c with
      | Call.stop => true
      | _ => !IUnifiedEngine.isRunning env r.log r.engine)
    && Run.callsWhileIdle env (Run.step env r c) cs

/-- Collaborators that always succeed: privileges are granted, `openTun`
answers a valid handle, a driver is created, and drivers and cores
initialise and start. -/
def AlwaysSucceeds (env : Env) : Prop :=
  (∀ log p, env.checkPrivileges log p = true)
  ∧ (∀ log p o, (env.openTun log p o).isValid = true)
  ∧ (∀ log t, env.driverCreate log t = true)
  ∧ (∀ log c, env.driverInitialize log c = true)
  ∧ (∀ log, env.driverStart log = true)
  ∧ (∀ log c, env.coreInitialize log c = true)
  ∧ (∀ log, env.coreStart log = true)

/-- Whether an event is a driver operation: the creation of a driver by the
driver factory or a call of a driver method. -/
def isDriverEvent : Event → Bool
  | Event.driverCreate _ _ => true
  | Event.driverInitialize _ _ => true
  | Event.driverStart _ => true
  | Event.driverStop => true
  | _ => false

/-- The driver variant a configuration requests, when it requests one
(`NONE` requests no driver). -/
def requestedDriver (config : EngineConfig) : Option DriverType :=
  match config.driver_type with
  | EngineConfig.DriverType.HEV_SOCKS5 => some DriverType.HEV_SOCKS5
  | EngineConfig.DriverType.TUN2SOCKS => some DriverType.TUN2SOCKS
  | EngineConfig.DriverType.NONE => none

/-- The V2Ray engine with the same member values as a LibXray engine. -/
def LibXrayEngine.asV2Ray (e : LibXrayEngine) : V2RayEngine :=
  { platform_ := e.platform_, core_ := e.core_, driver_ := e.driver_,
    tun_handle_ := e.tun_handle_, status_ := e.status_, config_ := e.config_ }

/-- A configuration that requests the TUN2SOCKS driver and is otherwise the
default one. -/
def tun2socksConfig : EngineConfig := { driver_type := EngineConfig.DriverType.TUN2SOCKS }

/-! ## Theorems -/

/-- C1 (the code departs from the claim): on a freshly constructed SingBox
engine, an `initialize` whose core fails to initialise returns false after
closing the device, but the engine is not back in its freshly constructed
state: it still holds the core and the stored handle is still valid. -/
theorem c1_failed_initialize_keeps_core_and_handle :
    ( IUnifiedEngine.initialize coreInitFailsEnv [] createSingBoxEngine {} (some 0)).1 = false
    ∧ ( IUnifiedEngine.initialize coreInitFailsEnv [] createSingBoxEngine {} (some 0)).2.1.hasCore
        = true
    ∧ ( IUnifiedEngine.initialize coreInitFailsEnv [] createSingBoxEngine {} (some 0)).2.1.tunHandle
        = handle3
    ∧ handle3.isValid = true
    ∧ ( IUnifiedEngine.initialize coreInitFailsEnv [] createSingBoxEngine {} (some 0)).2.2
        = [Event.checkPrivileges 0 true, Event.openTun 0 {} handle3, Event.coreNew,
           Event.coreInitialize (coreConfigOf {}) false, Event.closeTun 0 handle3] := by
  decide

/-- C2: in an `initialize` call whose privilege check passes and whose
`openTun` answers a valid handle `h`: on LibXray and V2Ray, a failing driver
`initialize` makes the call return false with exactly one `closeTun`, of `h`,
and no core `initialize`; a failing core `initialize` after a successful
driver `initialize` makes the call return false, leaves no driver held and
closes `h` exactly once; on SingBox a failing core `initialize` makes the
call return false and closes `h` exactly once. -/
theorem c2_initialize_rollback (env : Env) (log : List Event) (self : IUnifiedEngine)
    (config : EngineConfig) (p : Nat) (h : TunHandle)
    (hpriv : Event.checkPrivileges p true
      ∈ ( IUnifiedEngine.initialize env log self config (some p)).2.2)
    (hopen : Event.openTun p config.tun_options h
      ∈ ( IUnifiedEngine.initialize env log self config (some p)).2.2)
    (hvalid : h.isValid = true) :
    (self.usesDriver = true →
      (∃ c, Event.driverInitialize c false
        ∈ ( IUnifiedEngine.initialize env log self config (some p)).2.2) →
      ( IUnifiedEngine.initialize env log self config (some p)).1 = false
      ∧ closeTunCalls ( IUnifiedEngine.initialize env log self config (some p)).2.2 = [(p, h)]
      ∧ coreInitializeCalls ( IUnifiedEngine.initialize env log self config (some p)).2.2 = 0)
    ∧ (self.usesDriver = true →
      (∃ c, Event.driverInitialize c true
        ∈ ( IUnifiedEngine.initialize env log self config (some p)).2.2) →
      (∃ c, Event.coreInitialize c false
        ∈ ( IUnifiedEngine.initialize env log self config (some p)).2.2) →
      ( IUnifiedEngine.initialize env log self config (some p)).1 = false
      ∧ ( IUnifiedEngine.initialize env log self config (some p)).2.1.hasDriver = false
      ∧ closeTunCalls ( IUnifiedEngine.initialize env log self config (some p)).2.2 = [(p, h)])
    ∧ (self.usesDriver = false →
      (∃ c, Event.coreInitialize c false
        ∈ ( IUnifiedEngine.initialize env log self config (some p)).2.2) →
      ( IUnifiedEngine.initialize env log self config (some p)).1 = false
      ∧ closeTunCalls ( IUnifiedEngine.initialize env log self config (some p)).2.2
        = [(p, h)]) := by
  have _ := hvalid
  generalize hr : IUnifiedEngine.initialize env log self config (some p) = r at *
  rcases self with e | e | e
  · simp only [ IUnifiedEngine.initialize, SingBoxEngine.initialize] at hr
    split_ifs at hr <;> subst hr <;>
      simp_all [closeTunCalls, coreInitializeCalls, routeEvents, IUnifiedEngine.hasDriver,
        IUnifiedEngine.usesDriver]
  · simp only [ IUnifiedEngine.initialize, LibXrayEngine.initialize] at hr
    split_ifs at hr <;> subst hr <;>
      simp_all [closeTunCalls, coreInitializeCalls, routeEvents, IUnifiedEngine.hasDriver,
        IUnifiedEngine.usesDriver]
  · simp only [ IUnifiedEngine.initialize, V2RayEngine.initialize] at hr
    split_ifs at hr <;> subst hr <;>
      simp_all [closeTunCalls, coreInitializeCalls, routeEvents, IUnifiedEngine.hasDriver,
        IUnifiedEngine.usesDriver]

/-- C2 at concrete inputs: the LibXray engine with a driver that fails to
initialise, the V2Ray engine with a core that fails to initialise, and the
SingBox engine with a core that fails to initialise. -/
theorem c2_initialize_rollback_witness :
    (( IUnifiedEngine.initialize driverInitFailsEnv [] createLibXrayEngine {} (some 0)).1 = false
      ∧ closeTunCalls
          ( IUnifiedEngine.initialize driverInitFailsEnv [] createLibXrayEngine {} (some 0)).2.2
        = [(0, handle3)]
      ∧ coreInitializeCalls
          ( IUnifiedEngine.initialize driverInitFailsEnv [] createLibXrayEngine {} (some 0)).2.2
        = 0)
    ∧ (( IUnifiedEngine.initialize coreInitFailsEnv [] createV2RayEngine {} (some 0)).1 = false
      ∧ ( IUnifiedEngine.initialize coreInitFailsEnv [] createV2RayEngine {} (some 0)).2.1.hasDriver
        = false
      ∧ closeTunCalls
          ( IUnifiedEngine.initialize coreInitFailsEnv [] createV2RayEngine {} (some 0)).2.2
        = [(0, handle3)])
    ∧ (( IUnifiedEngine.initialize coreInitFailsEnv [] createSingBoxEngine {} (some 0)).1 = false
      ∧ closeTunCalls
          ( IUnifiedEngine.initialize coreInitFailsEnv [] createSingBoxEngine {} (some 0)).2.2
        = [(0, handle3)]) :=
  ⟨(c2_initialize_rollback driverInitFailsEnv [] createLibXrayEngine {} 0 handle3
      (by decide) (by decide) (by decide)).1 (by decide) ⟨driverConfigOf {}, by decide⟩,
   (c2_initialize_rollback coreInitFailsEnv [] createV2RayEngine {} 0 handle3
      (by decide) (by decide) (by decide)).2.1 (by decide) ⟨driverConfigOf {}, by decide⟩
      ⟨coreConfigOf {}, by decide⟩,
   (c2_initialize_rollback coreInitFailsEnv [] createSingBoxEngine {} 0 handle3
      (by decide) (by decide) (by decide)).2.2 (by decide) ⟨coreConfigOf {}, by decide⟩⟩

/-- C3 (the claim as stated fails): with collaborators whose `is_running()`
is truthful, the SingBox engine is initialised and started, then
`initialize` is called with a null platform; that call returns false and
`isRunning()` is still true. -/
theorem c3_failed_initialize_on_running_engine :
    WellBehaved grantingEnv
    ∧ (Run.steps grantingEnv (Run.begin createSingBoxEngine)
        [Call.init {} (some 0), Call.start, Call.init {} none]).results
      = [some true, some true, some false]
    ∧ IUnifiedEngine.isRunning grantingEnv
        (Run.steps grantingEnv (Run.begin createSingBoxEngine)
          [Call.init {} (some 0), Call.start, Call.init {} none]).log
        (Run.steps grantingEnv (Run.begin createSingBoxEngine)
          [Call.init {} (some 0), Call.start, Call.init {} none]).engine
      = true :=
  ⟨fun _ => ⟨rfl, rfl⟩, by decide, by decide⟩

/-- What a failed `initialize` does to `isRunning()`, in any state and after
any history, when `is_running()` is truthful: false once `openTun` was
called, unchanged when the call was rejected before that. -/
theorem initialize_failure_isRunning (env : Env) (hwb : WellBehaved env) (log : List Event)
    (self : IUnifiedEngine) (config : EngineConfig) (platform : Option Nat)
    (ret : Bool) (self' : IUnifiedEngine) (evs : List Event)
    (hr : IUnifiedEngine.initialize env log self config platform = (ret, self', evs))
    (hfail : ret = false) :
    (callsOpenTun evs = true → IUnifiedEngine.isRunning env (log ++ evs) self' = false)
    ∧ (callsOpenTun evs = false →
        IUnifiedEngine.isRunning env (log ++ evs) self' = IUnifiedEngine.isRunning env log self) := by
  have hc := fun l => (hwb l).1
  have hd := fun l => (hwb l).2
  subst hfail
  rcases self with e | e | e <;> rcases platform with _ | p
  · simp only [ IUnifiedEngine.initialize, SingBoxEngine.initialize, Prod.mk.injEq] at hr
    obtain ⟨-, rfl, rfl⟩ := hr
    simp [callsOpenTun]
  · simp only [ IUnifiedEngine.initialize, SingBoxEngine.initialize] at hr
    split_ifs at hr <;> simp only [Prod.mk.injEq] at hr <;> obtain ⟨hret, rfl, rfl⟩ := hr <;>
      simp_all [callsOpenTun, IUnifiedEngine.isRunning, SingBoxEngine.isRunning, coreActive,
        driverActive, List.foldl_append]
  · simp only [ IUnifiedEngine.initialize, LibXrayEngine.initialize, Prod.mk.injEq] at hr
    obtain ⟨-, rfl, rfl⟩ := hr
    simp [callsOpenTun]
  · simp only [ IUnifiedEngine.initialize, LibXrayEngine.initialize] at hr
    split_ifs at hr <;> simp only [Prod.mk.injEq] at hr <;> obtain ⟨hret, rfl, rfl⟩ := hr <;>
      simp_all [callsOpenTun, IUnifiedEngine.isRunning, LibXrayEngine.isRunning, coreActive,
        driverActive, List.foldl_append]
  · simp only [ IUnifiedEngine.initialize, V2RayEngine.initialize, Prod.mk.injEq] at hr
    obtain ⟨-, rfl, rfl⟩ := hr
    simp [callsOpenTun]
  · simp only [ IUnifiedEngine.initialize, V2RayEngine.initialize] at hr
    split_ifs at hr <;> simp only [Prod.mk.injEq] at hr <;> obtain ⟨hret, rfl, rfl⟩ := hr <;>
      simp_all [callsOpenTun, IUnifiedEngine.isRunning, V2RayEngine.isRunning, coreActive,
        driverActive, List.foldl_append]

/-- C3 (amended): for every engine and every finite sequence of lifecycle
calls, with collaborators whose `is_running()` is truthful: right after an
`initialize` call that returns false, `isRunning()` is false when the call
got as far as `openTun`, and is what it was right before the call when the
call was rejected earlier (null platform, failed privilege check). -/
theorem c3_failed_initialize_isRunning (env : Env) (hwb : WellBehaved env)
    (e0 : IUnifiedEngine) (cs : List Call) (config : EngineConfig) (platform : Option Nat)
    (ret : Bool) (self' : IUnifiedEngine) (evs : List Event)
    (hr : IUnifiedEngine.initialize env (Run.steps env (Run.begin e0) cs).log
      (Run.steps env (Run.begin e0) cs).engine config platform = (ret, self', evs))
    (hfail : ret = false) :
    (callsOpenTun evs = true →
      IUnifiedEngine.isRunning env ((Run.steps env (Run.begin e0) cs).log ++ evs) self' = false)
    ∧ (callsOpenTun evs = false →
      IUnifiedEngine.isRunning env ((Run.steps env (Run.begin e0) cs).log ++ evs) self'
        = IUnifiedEngine.isRunning env (Run.steps env (Run.begin e0) cs).log
            (Run.steps env (Run.begin e0) cs).engine) :=
  initialize_failure_isRunning env hwb _ _ config platform ret self' evs hr hfail

/-- C3 (amended) at concrete inputs: a fresh SingBox engine whose core fails
to initialise is not running afterwards; a running LibXray engine that
rejects a null platform keeps its `isRunning()` answer. -/
theorem c3_failed_initialize_isRunning_witness :
    IUnifiedEngine.isRunning coreInitFailsEnv
        ([] ++ [Event.checkPrivileges 0 true, Event.openTun 0 {} handle3, Event.coreNew,
           Event.coreInitialize (coreConfigOf {}) false, Event.closeTun 0 handle3])
        (IUnifiedEngine.singbox
          { platform_ := some 0, core_ := some (), tun_handle_ := handle3 }) = false
    ∧ IUnifiedEngine.isRunning grantingEnv
        ((Run.steps grantingEnv (Run.begin createLibXrayEngine)
          [Call.init {} (some 0), Call.start]).log ++ [])
        (Run.steps grantingEnv (Run.begin createLibXrayEngine)
          [Call.init {} (some 0), Call.start]).engine
      = IUnifiedEngine.isRunning grantingEnv
        (Run.steps grantingEnv (Run.begin createLibXrayEngine)
          [Call.init {} (some 0), Call.start]).log
        (Run.steps grantingEnv (Run.begin createLibXrayEngine)
          [Call.init {} (some 0), Call.start]).engine :=
  ⟨(c3_failed_initialize_isRunning coreInitFailsEnv (fun _ => ⟨rfl, rfl⟩)
      createSingBoxEngine [] {} (some 0) false _ _ (by decide) rfl).1 (by decide),
   (c3_failed_initialize_isRunning grantingEnv (fun _ => ⟨rfl, rfl⟩)
      createLibXrayEngine [Call.init {} (some 0), Call.start] {} none false _ _
      (by decide) rfl).2 (by decide)⟩

/-- C4 (the code departs from the claim): on a freshly constructed LibXray
engine, an `initialize` whose driver fails to initialise returns false and
leaves, between calls, a state with a driver and a valid handle but no core. -/
theorem c4_partial_state_after_failed_initialize :
    (Run.steps driverInitFailsEnv (Run.begin createLibXrayEngine)
      [Call.init {} (some 0)]).results = [some false]
    ∧ (Run.steps driverInitFailsEnv (Run.begin createLibXrayEngine)
      [Call.init {} (some 0)]).engine.hasCore = false
    ∧ (Run.steps driverInitFailsEnv (Run.begin createLibXrayEngine)
      [Call.init {} (some 0)]).engine.hasDriver = true
    ∧ (Run.steps driverInitFailsEnv (Run.begin createLibXrayEngine)
      [Call.init {} (some 0)]).engine.tunHandle.isValid = true := by
  decide

/-- C5: in every state in which the core is absent, or the handle is
invalid, or (LibXray, V2Ray) the driver is absent, `start()` returns false,
leaves every member unchanged and produces no event: no status callback and
no driver, core or platform call. -/
theorem c5_start_precondition (env : Env) (log : List Event) (self : IUnifiedEngine)
    (hpre : self.hasCore = false ∨ self.tunHandle.isValid = false
      ∨ (self.usesDriver = true ∧ self.hasDriver = false)) :
    IUnifiedEngine.start env log self = (false, self, []) := by
  rcases self with e | e | e <;>
    simp only [IUnifiedEngine.hasCore, IUnifiedEngine.tunHandle, IUnifiedEngine.usesDriver,
      IUnifiedEngine.hasDriver] at hpre <;>
    simp only [IUnifiedEngine.start, SingBoxEngine.start, LibXrayEngine.start,
      V2RayEngine.start] <;>
    rcases hpre with h | h | h <;> simp_all

/-- C5 at a concrete input: `start()` on a freshly constructed V2Ray engine. -/
theorem c5_start_precondition_witness :
    IUnifiedEngine.start grantingEnv [] createV2RayEngine = (false, createV2RayEngine, []) :=
  c5_start_precondition grantingEnv [] createV2RayEngine (Or.inl (by decide))

/-- C6 (the code departs from the claim): on a freshly constructed SingBox
engine, after an `initialize` that returned false because the core failed to
initialise, `start()` passes its precondition on the core and the closed
handle left behind: it returns true, calls the status callback with
Connecting and Connected and leaves the status Connected, although no
`initialize` call has returned true. -/
theorem c6_start_after_failed_initialize :
    (Run.steps coreInitFailsEnv (Run.begin createSingBoxEngine)
      [Call.init callbackConfig (some 0), Call.start]).results = [some false, some true]
    ∧ (Run.steps coreInitFailsEnv (Run.begin createSingBoxEngine)
      [Call.init callbackConfig (some 0), Call.start]).engine.getStatus
        = ConnectionStatus.CONNECTED
    ∧ statusCallbacks (Run.steps coreInitFailsEnv (Run.begin createSingBoxEngine)
      [Call.init callbackConfig (some 0), Call.start]).log
        = [ConnectionStatus.CONNECTING, ConnectionStatus.CONNECTED] := by
  decide

/-- A lifecycle call keeps this relation between two members: an engine that
holds a core has a platform stored. -/
theorem step_core_has_platform (env : Env) (r : Run) (c : Call)
    (h : r.engine.hasCore = true → r.engine.platform.isSome = true) :
    (Run.step env r c).engine.hasCore = true →
      (Run.step env r c).engine.platform.isSome = true := by
  obtain ⟨e, log, res⟩ := r
  rcases c with ⟨config, platform⟩ | _ | _
  · rcases platform with _ | p
    · rcases e with e | e | e <;> simpa [Run.step, IUnifiedEngine.initialize,
        SingBoxEngine.initialize, LibXrayEngine.initialize, V2RayEngine.initialize] using h
    · rcases e with e | e | e
      · simp only [Run.step, IUnifiedEngine.initialize, SingBoxEngine.initialize]
        split_ifs <;> simp [IUnifiedEngine.platform]
      · simp only [Run.step, IUnifiedEngine.initialize, LibXrayEngine.initialize]
        split_ifs <;> simp [IUnifiedEngine.platform]
      · simp only [Run.step, IUnifiedEngine.initialize, V2RayEngine.initialize]
        split_ifs <;> simp [IUnifiedEngine.platform]
  · rcases e with e | e | e
    · simp only [Run.step, IUnifiedEngine.start, SingBoxEngine.start]
      split_ifs <;> simpa [IUnifiedEngine.platform, IUnifiedEngine.hasCore] using h
    · simp only [Run.step, IUnifiedEngine.start, LibXrayEngine.start]
      split_ifs <;> simpa [IUnifiedEngine.platform, IUnifiedEngine.hasCore] using h
    · simp only [Run.step, IUnifiedEngine.start, V2RayEngine.start]
      split_ifs <;> simpa [IUnifiedEngine.platform, IUnifiedEngine.hasCore] using h
  · rcases e with e | e | e
    · simp only [Run.step, IUnifiedEngine.stop, SingBoxEngine.stop]
      by_cases hg : (e.core_.isSome && SingBoxEngine.isRunning env log e) = true
      · simp [hg, IUnifiedEngine.hasCore]
      · simpa [hg, IUnifiedEngine.platform, IUnifiedEngine.hasCore] using h
    · simp only [Run.step, IUnifiedEngine.stop, LibXrayEngine.stop]
      by_cases hg : LibXrayEngine.isRunning env log e = true
      · simp [hg, IUnifiedEngine.hasCore]
      · simpa [hg, IUnifiedEngine.platform, IUnifiedEngine.hasCore] using h
    · simp only [Run.step, IUnifiedEngine.stop, V2RayEngine.stop]
      by_cases hg : V2RayEngine.isRunning env log e = true
      · simp [hg, IUnifiedEngine.hasCore]
      · simpa [hg, IUnifiedEngine.platform, IUnifiedEngine.hasCore] using h

/-- The same relation after any finite sequence of lifecycle calls. -/
theorem steps_core_has_platform (env : Env) (cs : List Call) (r : Run)
    (h : r.engine.hasCore = true → r.engine.platform.isSome = true) :
    (Run.steps env r cs).engine.hasCore = true →
      (Run.steps env r cs).engine.platform.isSome = true := by
  induction cs generalizing r with
  | nil => simpa [Run.steps] using h
  | cons c cs ih =>
    simp only [Run.steps, List.foldl_cons]
    exact ih (Run.step env r c) (step_core_has_platform env r c h)

/-- An engine made by the factory holds no core. -/
theorem create_hasCore (type : EngineConfig.CoreType) (e0 : IUnifiedEngine)
    (h : UnifiedEngineFactory.create type = some e0) : e0.hasCore = false := by
  unfold UnifiedEngineFactory.create at h
  split_ifs at h <;> simp only [Option.some.injEq, reduceCtorEq] at h <;> subst h <;> rfl

/-- What `stop()` does on a running engine that has a platform stored. -/
theorem stop_running (env : Env) (log : List Event) (self : IUnifiedEngine) (p : Nat)
    (self' : IUnifiedEngine) (evs : List Event)
    (hp : self.platform = some p)
    (hrun : IUnifiedEngine.isRunning env log self = true)
    (hr : IUnifiedEngine.stop env log self = (self', evs)) :
    evs = notify self.config ConnectionStatus.DISCONNECTING
        ++ [Event.coreStop]
        ++ (if self.usesDriver then [Event.driverStop] else [])
        ++ [Event.closeTun p self.tunHandle]
        ++ notify self.config ConnectionStatus.DISCONNECTED
    ∧ self'.hasCore = false ∧ self'.hasDriver = false
    ∧ self'.tunHandle.isValid = false
    ∧ self'.getStatus = ConnectionStatus.DISCONNECTED := by
  rcases self with e | e | e
  · simp only [IUnifiedEngine.platform] at hp
    have hrun' := hrun
    simp only [IUnifiedEngine.isRunning, SingBoxEngine.isRunning, Bool.and_eq_true] at hrun
    obtain ⟨⟨h1, h2⟩, h3⟩ := hrun
    simp only [IUnifiedEngine.isRunning] at hrun'
    simp only [IUnifiedEngine.stop, SingBoxEngine.stop, hrun', h1, h3, hp, Bool.and_self,
      if_true, Option.isSome_some, Prod.mk.injEq] at hr
    obtain ⟨rfl, rfl⟩ := hr
    simp [IUnifiedEngine.config, IUnifiedEngine.usesDriver, IUnifiedEngine.tunHandle,
      IUnifiedEngine.hasCore, IUnifiedEngine.hasDriver, IUnifiedEngine.getStatus,
      SingBoxEngine.getStatus, TunHandle.isValid]
  · simp only [IUnifiedEngine.platform] at hp
    have hrun' := hrun
    simp only [IUnifiedEngine.isRunning, LibXrayEngine.isRunning, Bool.and_eq_true] at hrun
    obtain ⟨⟨⟨⟨h1, h2⟩, h3⟩, h4⟩, h5⟩ := hrun
    simp only [IUnifiedEngine.isRunning] at hrun'
    simp only [IUnifiedEngine.stop, LibXrayEngine.stop, hrun', h1, h3, h5, hp, Bool.and_self,
      if_true, Option.isSome_some, Prod.mk.injEq] at hr
    obtain ⟨rfl, rfl⟩ := hr
    simp [IUnifiedEngine.config, IUnifiedEngine.usesDriver, IUnifiedEngine.tunHandle,
      IUnifiedEngine.hasCore, IUnifiedEngine.hasDriver, IUnifiedEngine.getStatus,
      LibXrayEngine.getStatus, TunHandle.isValid]
  · simp only [IUnifiedEngine.platform] at hp
    have hrun' := hrun
    simp only [IUnifiedEngine.isRunning, V2RayEngine.isRunning, Bool.and_eq_true] at hrun
    obtain ⟨⟨⟨⟨h1, h2⟩, h3⟩, h4⟩, h5⟩ := hrun
    simp only [IUnifiedEngine.isRunning] at hrun'
    simp only [IUnifiedEngine.stop, V2RayEngine.stop, hrun', h1, h3, h5, hp, Bool.and_self,
      if_true, Option.isSome_some, Prod.mk.injEq] at hr
    obtain ⟨rfl, rfl⟩ := hr
    simp [IUnifiedEngine.config, IUnifiedEngine.usesDriver, IUnifiedEngine.tunHandle,
      IUnifiedEngine.hasCore, IUnifiedEngine.hasDriver, IUnifiedEngine.getStatus,
      V2RayEngine.getStatus, TunHandle.isValid]

/-- C10 (the claim as stated fails): a LibXray engine initialised with a
configuration that registers no status callback and then started is
running; its `stop()` stops the core and the driver and closes the device,
and emits no status callback at all. -/
theorem c10_no_callback_registered :
    IUnifiedEngine.isRunning grantingEnv
        (Run.steps grantingEnv (Run.begin createLibXrayEngine)
          [Call.init {} (some 0), Call.start]).log
        (Run.steps grantingEnv (Run.begin createLibXrayEngine)
          [Call.init {} (some 0), Call.start]).engine = true
    ∧ (IUnifiedEngine.stop grantingEnv
        (Run.steps grantingEnv (Run.begin createLibXrayEngine)
          [Call.init {} (some 0), Call.start]).log
        (Run.steps grantingEnv (Run.begin createLibXrayEngine)
          [Call.init {} (some 0), Call.start]).engine).2
      = [Event.coreStop, Event.driverStop, Event.closeTun 0 handle3]
    ∧ statusCallbacks (IUnifiedEngine.stop grantingEnv
        (Run.steps grantingEnv (Run.begin createLibXrayEngine)
          [Call.init {} (some 0), Call.start]).log
        (Run.steps grantingEnv (Run.begin createLibXrayEngine)
          [Call.init {} (some 0), Call.start]).engine).2
      ≠ [ConnectionStatus.DISCONNECTING, ConnectionStatus.DISCONNECTED] := by
  decide

/-- C10 (amended): let an engine made by the factory go through any finite
sequence of lifecycle calls and be running afterwards.  Then `stop()`
produces, in this order, the guarded Disconnecting callback, the core
`stop()`, the driver `stop()` (LibXray, V2Ray only), one `closeTun` of the
held handle on the stored platform, the guarded Disconnected callback; after
it the engine holds no core and no driver, its handle is invalid and its
status is Disconnected.  The callbacks are Disconnecting then Disconnected
when a status callback is registered, and none otherwise. -/
theorem c10_stop_teardown (env : Env) (type : EngineConfig.CoreType) (e0 : IUnifiedEngine)
    (cs : List Call) (r : Run) (self' : IUnifiedEngine) (evs : List Event)
    (hcreate : UnifiedEngineFactory.create type = some e0)
    (hreach : r = Run.steps env (Run.begin e0) cs)
    (hrun : IUnifiedEngine.isRunning env r.log r.engine = true)
    (hr : IUnifiedEngine.stop env r.log r.engine = (self', evs)) :
    ∃ p, r.engine.platform = some p
      ∧ evs = notify r.engine.config ConnectionStatus.DISCONNECTING
          ++ [Event.coreStop]
          ++ (if r.engine.usesDriver then [Event.driverStop] else [])
          ++ [Event.closeTun p r.engine.tunHandle]
          ++ notify r.engine.config ConnectionStatus.DISCONNECTED
      ∧ closeTunCalls evs = [(p, r.engine.tunHandle)]
      ∧ self'.hasCore = false ∧ self'.hasDriver = false
      ∧ self'.tunHandle.isValid = false
      ∧ self'.getStatus = ConnectionStatus.DISCONNECTED
      ∧ (r.engine.config.status_callback = true →
          statusCallbacks evs
            = [ConnectionStatus.DISCONNECTING, ConnectionStatus.DISCONNECTED])
      ∧ (r.engine.config.status_callback = false → statusCallbacks evs = []) := by
  have hcore : r.engine.hasCore = true := by
    rcases hre : r.engine with e | e | e <;> rw [hre] at hrun <;>
      simp only [IUnifiedEngine.isRunning, SingBoxEngine.isRunning, LibXrayEngine.isRunning,
        V2RayEngine.isRunning, Bool.and_eq_true] at hrun <;>
      simp [IUnifiedEngine.hasCore, hrun]
  have hplat : r.engine.platform.isSome = true := by
    rw [hreach] at hcore ⊢
    refine steps_core_has_platform env cs (Run.begin e0) ?_ hcore
    intro h0
    rw [Run.begin, create_hasCore type e0 hcreate] at h0
    cases h0
  obtain ⟨p, hp⟩ := Option.isSome_iff_exists.mp hplat
  obtain ⟨h1, h2, h3, h4, h5⟩ := stop_running env r.log r.engine p self' evs hp hrun hr
  refine ⟨p, hp, h1, ?_, h2, h3, h4, h5, ?_, ?_⟩
  · rw [h1]
    cases hcb : r.engine.config.status_callback <;> cases hu : r.engine.usesDriver <;>
      simp [notify, closeTunCalls, hcb]
  · intro hcb
    rw [h1]
    cases hu : r.engine.usesDriver <;> simp [notify, statusCallbacks, hcb]
  · intro hcb
    rw [h1]
    cases hu : r.engine.usesDriver <;> simp [notify, statusCallbacks, hcb]

/-- C10 (amended) at a concrete input: a LibXray engine made by the factory,
initialised with a registered status callback and started. -/
theorem c10_stop_teardown_witness :
    IUnifiedEngine.stop grantingEnv
        (Run.steps grantingEnv (Run.begin createLibXrayEngine)
          [Call.init callbackConfig (some 0), Call.start]).log
        (Run.steps grantingEnv (Run.begin createLibXrayEngine)
          [Call.init callbackConfig (some 0), Call.start]).engine
      = (IUnifiedEngine.libxray
          { platform_ := some 0, tun_handle_ := { fd := -1, platform := "test" },
            config_ := callbackConfig },
         [Event.status_callback ConnectionStatus.DISCONNECTING, Event.coreStop,
          Event.driverStop, Event.closeTun 0 handle3,
          Event.status_callback ConnectionStatus.DISCONNECTED])
    ∧ ∃ p, closeTunCalls
        [Event.status_callback ConnectionStatus.DISCONNECTING, Event.coreStop,
          Event.driverStop, Event.closeTun 0 handle3,
          Event.status_callback ConnectionStatus.DISCONNECTED]
        = [(p, (Run.steps grantingEnv (Run.begin createLibXrayEngine)
          [Call.init callbackConfig (some 0), Call.start]).engine.tunHandle)] :=
  ⟨by decide,
   (c10_stop_teardown grantingEnv EngineConfig.CoreType.LIBXRAY createLibXrayEngine
      [Call.init callbackConfig (some 0), Call.start] _
      (IUnifiedEngine.libxray
        { platform_ := some 0, tun_handle_ := { fd := -1, platform := "test" },
          config_ := callbackConfig })
      _ (by decide) rfl (by decide) (by decide)).imp (fun _ h => h.2.2.1)⟩

/-- An engine that holds no core is not running. -/
theorem isRunning_of_no_core (env : Env) (log : List Event) (self : IUnifiedEngine)
    (h : self.hasCore = false) : IUnifiedEngine.isRunning env log self = false := by
  rcases self with e | e | e <;> simp only [IUnifiedEngine.hasCore] at h <;>
    simp [IUnifiedEngine.isRunning, SingBoxEngine.isRunning, LibXrayEngine.isRunning,
      V2RayEngine.isRunning, h]

/-- On an engine that is not running `stop()` does nothing. -/
theorem stop_not_running (env : Env) (log : List Event) (self : IUnifiedEngine)
    (h : IUnifiedEngine.isRunning env log self = false) :
    IUnifiedEngine.stop env log self = (self, []) := by
  rcases self with e | e | e <;> simp only [IUnifiedEngine.isRunning] at h <;>
    simp [IUnifiedEngine.stop, SingBoxEngine.stop, LibXrayEngine.stop, V2RayEngine.stop, h]

/-- On a running engine `stop()` releases the core, sets the status to
Disconnected and calls `closeTun` at most once. -/
theorem stop_running_releases (env : Env) (log : List Event) (self : IUnifiedEngine)
    (h : IUnifiedEngine.isRunning env log self = true) :
    (IUnifiedEngine.stop env log self).1.hasCore = false
    ∧ (IUnifiedEngine.stop env log self).1.getStatus = ConnectionStatus.DISCONNECTED
    ∧ (closeTunCalls (IUnifiedEngine.stop env log self).2).length ≤ 1 := by
  rcases self with e | e | e
  · simp only [IUnifiedEngine.isRunning] at h
    have hc : e.core_.isSome = true := by
      simp only [SingBoxEngine.isRunning, Bool.and_eq_true] at h
      exact h.1.1
    simp only [IUnifiedEngine.stop, SingBoxEngine.stop, h, hc, Bool.and_self, if_true]
    rcases hp : e.platform_ with _ | p <;> cases hv : e.tun_handle_.isValid <;>
      cases hcb : e.config_.status_callback <;>
      simp [IUnifiedEngine.hasCore, IUnifiedEngine.getStatus, SingBoxEngine.getStatus,
        closeTunCalls, notify, hcb]
  · simp only [IUnifiedEngine.isRunning] at h
    simp only [IUnifiedEngine.stop, LibXrayEngine.stop, h, if_true]
    rcases hp : e.platform_ with _ | p <;> cases hv : e.tun_handle_.isValid <;>
      cases hcb : e.config_.status_callback <;> cases hc : e.core_.isSome <;>
      cases hd : e.driver_.isSome <;>
      simp [IUnifiedEngine.hasCore, IUnifiedEngine.getStatus, LibXrayEngine.getStatus,
        closeTunCalls, notify, hcb]
  · simp only [IUnifiedEngine.isRunning] at h
    simp only [IUnifiedEngine.stop, V2RayEngine.stop, h, if_true]
    rcases hp : e.platform_ with _ | p <;> cases hv : e.tun_handle_.isValid <;>
      cases hcb : e.config_.status_callback <;> cases hc : e.core_.isSome <;>
      cases hd : e.driver_.isSome <;>
      simp [IUnifiedEngine.hasCore, IUnifiedEngine.getStatus, LibXrayEngine.getStatus,
        V2RayEngine.getStatus, closeTunCalls, notify, hcb]

/-- C11: in every state and after every history, a second `stop()` right
after a first one returns the state the first one left and produces no
event (no status callback, no driver, core or platform call); the two calls
together contain at most one `closeTun`; if the engine was running the
final status is Disconnected; and `stop()` on an engine for which
`isRunning()` is false changes nothing and produces nothing. -/
theorem c11_stop_idempotent (env : Env) (log : List Event) (self : IUnifiedEngine) :
    IUnifiedEngine.stop env (log ++ (IUnifiedEngine.stop env log self).2)
        (IUnifiedEngine.stop env log self).1
      = ((IUnifiedEngine.stop env log self).1, [])
    ∧ (closeTunCalls ((IUnifiedEngine.stop env log self).2
        ++ (IUnifiedEngine.stop env (log ++ (IUnifiedEngine.stop env log self).2)
              (IUnifiedEngine.stop env log self).1).2)).length ≤ 1
    ∧ (IUnifiedEngine.isRunning env log self = true →
        (IUnifiedEngine.stop env log self).1.getStatus = ConnectionStatus.DISCONNECTED)
    ∧ (IUnifiedEngine.isRunning env log self = false →
        IUnifiedEngine.stop env log self = (self, [])) := by
  have hsecond : IUnifiedEngine.stop env (log ++ (IUnifiedEngine.stop env log self).2)
      (IUnifiedEngine.stop env log self).1 = ((IUnifiedEngine.stop env log self).1, []) := by
    cases hrun : IUnifiedEngine.isRunning env log self
    · rw [stop_not_running env log self hrun]
      simpa using stop_not_running env log self hrun
    · exact stop_not_running env _ _
        (isRunning_of_no_core env _ _ (stop_running_releases env log self hrun).1)
  refine ⟨hsecond, ?_, fun hrun => (stop_running_releases env log self hrun).2.1,
    stop_not_running env log self⟩
  rw [hsecond, List.append_nil]
  cases hrun : IUnifiedEngine.isRunning env log self
  · rw [stop_not_running env log self hrun]
    simp [closeTunCalls]
  · exact (stop_running_releases env log self hrun).2.2

/-- C11 at concrete inputs: a running LibXray engine (the first `stop()`
closes the device once, the second does nothing) and a freshly constructed
SingBox engine. -/
theorem c11_stop_idempotent_witness :
    (IUnifiedEngine.stop grantingEnv
        (Run.steps grantingEnv (Run.begin createLibXrayEngine)
          [Call.init callbackConfig (some 0), Call.start]).log
        (Run.steps grantingEnv (Run.begin createLibXrayEngine)
          [Call.init callbackConfig (some 0), Call.start]).engine).1.getStatus
      = ConnectionStatus.DISCONNECTED
    ∧ IUnifiedEngine.stop grantingEnv [] createSingBoxEngine = (createSingBoxEngine, []) :=
  ⟨(c11_stop_idempotent grantingEnv _ _).2.2.1 (by decide),
   (c11_stop_idempotent grantingEnv [] createSingBoxEngine).2.2.2 (by decide)⟩

/-- A `start()` that passes its precondition and returns false leaves the
engine as it was, with the status Error. -/
theorem start_failure_state (env : Env) (log : List Event) (self : IUnifiedEngine)
    (ret : Bool) (self' : IUnifiedEngine) (evs : List Event)
    (hpre : self.hasCore = true ∧ (self.usesDriver = true → self.hasDriver = true)
      ∧ self.tunHandle.isValid = true)
    (hr : IUnifiedEngine.start env log self = (ret, self', evs))
    (hfail : ret = false) :
    self' = self.withStatus ConnectionStatus.ERROR := by
  subst hfail
  rcases self with e | e | e
  · simp only [IUnifiedEngine.hasCore, IUnifiedEngine.tunHandle] at hpre
    obtain ⟨h1, -, h3⟩ := hpre
    simp only [IUnifiedEngine.start, SingBoxEngine.start, h1, h3, Bool.not_true, Bool.or_self,
      Bool.false_eq_true, if_false] at hr
    split_ifs at hr <;> simp only [Prod.mk.injEq] at hr <;> obtain ⟨hret, rfl, rfl⟩ := hr <;>
      first
        | rfl
        | exact absurd hret (by decide)
  · simp only [IUnifiedEngine.hasCore, IUnifiedEngine.hasDriver, IUnifiedEngine.tunHandle,
      IUnifiedEngine.usesDriver, true_implies] at hpre
    obtain ⟨h1, h2, h3⟩ := hpre
    simp only [IUnifiedEngine.start, LibXrayEngine.start, h1, h2, h3, Bool.not_true,
      Bool.or_self, Bool.false_eq_true, if_false] at hr
    split_ifs at hr <;> simp only [Prod.mk.injEq] at hr <;> obtain ⟨hret, rfl, rfl⟩ := hr <;>
      first
        | rfl
        | exact absurd hret (by decide)
  · simp only [IUnifiedEngine.hasCore, IUnifiedEngine.hasDriver, IUnifiedEngine.tunHandle,
      IUnifiedEngine.usesDriver, true_implies] at hpre
    obtain ⟨h1, h2, h3⟩ := hpre
    simp only [IUnifiedEngine.start, V2RayEngine.start, h1, h2, h3, Bool.not_true,
      Bool.or_self, Bool.false_eq_true, if_false] at hr
    split_ifs at hr <;> simp only [Prod.mk.injEq] at hr <;> obtain ⟨hret, rfl, rfl⟩ := hr <;>
      first
        | rfl
        | exact absurd hret (by decide)

/-- C12 (the claim as stated fails): a SingBox engine is initialised and its
`start()` fails in the core, which reports not running afterwards; the
status is Error, and the following `stop()` does nothing: the status stays
Error, no Disconnecting or Disconnected callback is emitted, the core and
the valid handle stay held and `closeTun` is never called. -/
theorem c12_stop_after_failed_start_is_noop :
    (Run.steps coreStartFailsEnv (Run.begin createSingBoxEngine)
      [Call.init callbackConfig (some 0), Call.start, Call.stop]).results
      = [some true, some false, none]
    ∧ IUnifiedEngine.isRunning coreStartFailsEnv
        (Run.steps coreStartFailsEnv (Run.begin createSingBoxEngine)
          [Call.init callbackConfig (some 0), Call.start]).log
        (Run.steps coreStartFailsEnv (Run.begin createSingBoxEngine)
          [Call.init callbackConfig (some 0), Call.start]).engine = false
    ∧ (Run.steps coreStartFailsEnv (Run.begin createSingBoxEngine)
      [Call.init callbackConfig (some 0), Call.start]).engine.getStatus
        = ConnectionStatus.ERROR
    ∧ (Run.steps coreStartFailsEnv (Run.begin createSingBoxEngine)
      [Call.init callbackConfig (some 0), Call.start, Call.stop]).engine.getStatus
        = ConnectionStatus.ERROR
    ∧ statusCallbacks (Run.steps coreStartFailsEnv (Run.begin createSingBoxEngine)
      [Call.init callbackConfig (some 0), Call.start, Call.stop]).log
        = [ConnectionStatus.CONNECTING, ConnectionStatus.ERROR]
    ∧ (Run.steps coreStartFailsEnv (Run.begin createSingBoxEngine)
      [Call.init callbackConfig (some 0), Call.start, Call.stop]).engine.hasCore = true
    ∧ (Run.steps coreStartFailsEnv (Run.begin createSingBoxEngine)
      [Call.init callbackConfig (some 0), Call.start, Call.stop]).engine.tunHandle.isValid
        = true
    ∧ closeTunCalls (Run.steps coreStartFailsEnv (Run.begin createSingBoxEngine)
      [Call.init callbackConfig (some 0), Call.start, Call.stop]).log = [] := by
  decide

/-- C12 (amended): in any state that passes the precondition of `start()`,
when `start()` returns false and afterwards the core, or on LibXray and
V2Ray the driver, reports not running: the status is Error and a following
`stop()` is the no-op of an engine that is not running: it produces no
event and leaves the status Error and the core, the driver and the handle
as they were. -/
theorem c12_stop_in_error_state (env : Env) (log : List Event) (self : IUnifiedEngine)
    (ret : Bool) (self' : IUnifiedEngine) (evs : List Event)
    (hpre : self.hasCore = true ∧ (self.usesDriver = true → self.hasDriver = true)
      ∧ self.tunHandle.isValid = true)
    (hr : IUnifiedEngine.start env log self = (ret, self', evs))
    (hfail : ret = false)
    (hnot : env.coreIsRunning (log ++ evs) = false
      ∨ (self.usesDriver = true ∧ env.driverIsRunning (log ++ evs) = false)) :
    self'.getStatus = ConnectionStatus.ERROR
    ∧ IUnifiedEngine.stop env (log ++ evs) self' = (self', [])
    ∧ (IUnifiedEngine.stop env (log ++ evs) self').1.getStatus = ConnectionStatus.ERROR
    ∧ (IUnifiedEngine.stop env (log ++ evs) self').1.hasCore = true
    ∧ (IUnifiedEngine.stop env (log ++ evs) self').1.hasDriver = self.hasDriver
    ∧ (IUnifiedEngine.stop env (log ++ evs) self').1.tunHandle = self.tunHandle := by
  have hs := start_failure_state env log self ret self' evs hpre hr hfail
  have hidle : IUnifiedEngine.isRunning env (log ++ evs) self' = false := by
    subst hs
    rcases self with e | e | e <;>
      simp only [IUnifiedEngine.usesDriver] at hnot <;>
      rcases hnot with h | h <;>
      simp_all [IUnifiedEngine.isRunning, SingBoxEngine.isRunning, LibXrayEngine.isRunning,
        V2RayEngine.isRunning, IUnifiedEngine.withStatus]
  rw [stop_not_running env _ _ hidle]
  subst hs
  obtain ⟨h1, -, -⟩ := hpre
  rcases self with e | e | e <;>
    simp_all [IUnifiedEngine.withStatus, IUnifiedEngine.getStatus, SingBoxEngine.getStatus,
      LibXrayEngine.getStatus, V2RayEngine.getStatus, IUnifiedEngine.hasCore,
      IUnifiedEngine.hasDriver, IUnifiedEngine.tunHandle]

/-- C12 (amended) at a concrete input: an initialised V2Ray engine whose core
fails to start. -/
theorem c12_stop_in_error_state_witness :
    IUnifiedEngine.stop coreStartFailsEnv
        ([] ++ [Event.status_callback ConnectionStatus.CONNECTING, Event.driverStart true,
           Event.coreStart false, Event.driverStop,
           Event.status_callback ConnectionStatus.ERROR])
        (readyV2Ray.withStatus ConnectionStatus.ERROR)
      = (readyV2Ray.withStatus ConnectionStatus.ERROR, []) :=
  (c12_stop_in_error_state coreStartFailsEnv [] readyV2Ray false
    (readyV2Ray.withStatus ConnectionStatus.ERROR)
    [Event.status_callback ConnectionStatus.CONNECTING, Event.driverStart true,
     Event.coreStart false, Event.driverStop, Event.status_callback ConnectionStatus.ERROR]
    (by decide) (by decide) rfl (Or.inl (by decide))).2.1

/-- What `Run.statusAgrees` says. -/
theorem statusAgrees_iff (env : Env) (r : Run) :
    Run.statusAgrees env r = true ↔
      (r.engine.getStatus = ConnectionStatus.CONNECTED
        ↔ IUnifiedEngine.isRunning env r.log r.engine = true) := by
  unfold Run.statusAgrees
  cases IUnifiedEngine.isRunning env r.log r.engine <;> simp

set_option maxHeartbeats 1600000 in
/-- With truthful `is_running()`, an `initialize` called on an engine that
is not running and not Connected leaves it not running and not Connected. -/
theorem initialize_keeps_idle (env : Env) (hwb : WellBehaved env) (log : List Event)
    (self : IUnifiedEngine) (config : EngineConfig) (platform : Option Nat)
    (ret : Bool) (self' : IUnifiedEngine) (evs : List Event)
    (hidle : IUnifiedEngine.isRunning env log self = false)
    (hst : self.getStatus ≠ ConnectionStatus.CONNECTED)
    (hr : IUnifiedEngine.initialize env log self config platform = (ret, self', evs)) :
    IUnifiedEngine.isRunning env (log ++ evs) self' = false
    ∧ self'.getStatus ≠ ConnectionStatus.CONNECTED := by
  have hc := fun l => (hwb l).1
  have hd := fun l => (hwb l).2
  rcases self with e | e | e <;> rcases platform with _ | p
  · simp only [ IUnifiedEngine.initialize, SingBoxEngine.initialize, Prod.mk.injEq] at hr
    obtain ⟨-, rfl, rfl⟩ := hr
    simpa using ⟨hidle, hst⟩
  · simp only [ IUnifiedEngine.initialize, SingBoxEngine.initialize] at hr
    split_ifs at hr <;> simp only [Prod.mk.injEq] at hr <;> obtain ⟨hret, rfl, rfl⟩ := hr <;>
      cases har : config.tun_options.auto_route <;>
      simp_all [IUnifiedEngine.isRunning, SingBoxEngine.isRunning, coreActive,
        driverActive, List.foldl_append, routeEvents, IUnifiedEngine.getStatus,
        SingBoxEngine.getStatus]
  · simp only [ IUnifiedEngine.initialize, LibXrayEngine.initialize, Prod.mk.injEq] at hr
    obtain ⟨-, rfl, rfl⟩ := hr
    simpa using ⟨hidle, hst⟩
  · simp only [ IUnifiedEngine.initialize, LibXrayEngine.initialize] at hr
    split_ifs at hr <;> simp only [Prod.mk.injEq] at hr <;> obtain ⟨hret, rfl, rfl⟩ := hr <;>
      cases har : config.tun_options.auto_route <;>
      simp_all [IUnifiedEngine.isRunning, LibXrayEngine.isRunning, coreActive,
        driverActive, List.foldl_append, routeEvents, IUnifiedEngine.getStatus,
        LibXrayEngine.getStatus]
  · simp only [ IUnifiedEngine.initialize, V2RayEngine.initialize, Prod.mk.injEq] at hr
    obtain ⟨-, rfl, rfl⟩ := hr
    simpa using ⟨hidle, hst⟩
  · simp only [ IUnifiedEngine.initialize, V2RayEngine.initialize] at hr
    split_ifs at hr <;> simp only [Prod.mk.injEq] at hr <;> obtain ⟨hret, rfl, rfl⟩ := hr <;>
      cases har : config.tun_options.auto_route <;>
      simp_all [IUnifiedEngine.isRunning, V2RayEngine.isRunning, coreActive,
        driverActive, List.foldl_append, routeEvents, IUnifiedEngine.getStatus,
        V2RayEngine.getStatus]

set_option maxHeartbeats 1600000 in
/-- With truthful `is_running()`, after a `start()` called on an engine that
is not running and not Connected, the status is Connected exactly when the
engine is running. -/
theorem start_from_idle_agrees (env : Env) (hwb : WellBehaved env) (log : List Event)
    (self : IUnifiedEngine) (ret : Bool) (self' : IUnifiedEngine) (evs : List Event)
    (hidle : IUnifiedEngine.isRunning env log self = false)
    (hst : self.getStatus ≠ ConnectionStatus.CONNECTED)
    (hr : IUnifiedEngine.start env log self = (ret, self', evs)) :
    (self'.getStatus = ConnectionStatus.CONNECTED
      ↔ IUnifiedEngine.isRunning env (log ++ evs) self' = true) := by
  have hc := fun l => (hwb l).1
  have hd := fun l => (hwb l).2
  rcases self with e | e | e
  · simp only [IUnifiedEngine.start, SingBoxEngine.start] at hr
    split_ifs at hr <;> simp only [Prod.mk.injEq] at hr <;> obtain ⟨hret, rfl, rfl⟩ := hr <;>
      cases hcb : e.config_.status_callback <;>
      simp_all [IUnifiedEngine.isRunning, SingBoxEngine.isRunning, coreActive,
        driverActive, List.foldl_append, notify, IUnifiedEngine.getStatus,
        SingBoxEngine.getStatus, Option.isSome_iff_ne_none]
  · simp only [IUnifiedEngine.start, LibXrayEngine.start] at hr
    split_ifs at hr <;> simp only [Prod.mk.injEq] at hr <;> obtain ⟨hret, rfl, rfl⟩ := hr <;>
      cases hcb : e.config_.status_callback <;>
      simp_all [IUnifiedEngine.isRunning, LibXrayEngine.isRunning, coreActive,
        driverActive, List.foldl_append, notify, IUnifiedEngine.getStatus,
        LibXrayEngine.getStatus, Option.isSome_iff_ne_none]
  · simp only [IUnifiedEngine.start, V2RayEngine.start] at hr
    split_ifs at hr <;> simp only [Prod.mk.injEq] at hr <;> obtain ⟨hret, rfl, rfl⟩ := hr <;>
      cases hcb : e.config_.status_callback <;>
      simp_all [IUnifiedEngine.isRunning, V2RayEngine.isRunning, coreActive,
        driverActive, List.foldl_append, notify, IUnifiedEngine.getStatus,
        V2RayEngine.getStatus, Option.isSome_iff_ne_none]

/-- A `stop()` keeps the agreement of the status with `isRunning()`. -/
theorem stop_keeps_agreement (env : Env) (log : List Event) (self : IUnifiedEngine)
    (hag : self.getStatus = ConnectionStatus.CONNECTED
      ↔ IUnifiedEngine.isRunning env log self = true) :
    ((IUnifiedEngine.stop env log self).1.getStatus = ConnectionStatus.CONNECTED
      ↔ IUnifiedEngine.isRunning env (log ++ (IUnifiedEngine.stop env log self).2)
          (IUnifiedEngine.stop env log self).1 = true) := by
  cases hrun : IUnifiedEngine.isRunning env log self
  · rw [stop_not_running env log self hrun]
    simpa [hrun] using hag
  · obtain ⟨h1, h2, -⟩ := stop_running_releases env log self hrun
    rw [isRunning_of_no_core env _ _ h1, h2]
    simp

/-- With truthful `is_running()`, a lifecycle call keeps the agreement of
the status with `isRunning()` when it is a `stop()`, or is made while the
engine is not running. -/
theorem step_statusAgrees (env : Env) (hwb : WellBehaved env) (r : Run) (c : Call)
    (hag : Run.statusAgrees env r = true)
    (hidle : (match c with
      | Call.stop => true
      | _ => !IUnifiedEngine.isRunning env r.log r.engine) = true) :
    Run.statusAgrees env (Run.step env r c) = true := by
  rw [statusAgrees_iff] at hag ⊢
  rcases c with ⟨config, platform⟩ | _ | _
  · have hrun : IUnifiedEngine.isRunning env r.log r.engine = false := by simpa using hidle
    have hst : r.engine.getStatus ≠ ConnectionStatus.CONNECTED := by
      intro h
      rw [hag.mp h] at hrun
      cases hrun
    obtain ⟨h1, h2⟩ := initialize_keeps_idle env hwb r.log r.engine config platform
      ( IUnifiedEngine.initialize env r.log r.engine config platform).1
      ( IUnifiedEngine.initialize env r.log r.engine config platform).2.1
      ( IUnifiedEngine.initialize env r.log r.engine config platform).2.2 hrun hst rfl
    simp only [Run.step]
    rw [h1]
    simp [h2]
  · have hrun : IUnifiedEngine.isRunning env r.log r.engine = false := by simpa using hidle
    have hst : r.engine.getStatus ≠ ConnectionStatus.CONNECTED := by
      intro h
      rw [hag.mp h] at hrun
      cases hrun
    exact start_from_idle_agrees env hwb r.log r.engine
      (IUnifiedEngine.start env r.log r.engine).1 (IUnifiedEngine.start env r.log r.engine).2.1
      (IUnifiedEngine.start env r.log r.engine).2.2 hrun hst rfl
  · exact stop_keeps_agreement env r.log r.engine hag

/-- The agreement is kept along a sequence of calls in which `initialize`
and `start` are called only while the engine is not running. -/
theorem steps_statusAgrees (env : Env) (hwb : WellBehaved env) (cs : List Call) (r : Run)
    (hag : Run.statusAgrees env r = true)
    (hidle : Run.callsWhileIdle env r cs = true) :
    Run.statusAgrees env (Run.steps env r cs) = true := by
  induction cs generalizing r with
  | nil => simpa [Run.steps] using hag
  | cons c cs ih =>
    simp only [Run.callsWhileIdle, Bool.and_eq_true] at hidle
    simp only [Run.steps, List.foldl_cons]
    exact ih (Run.step env r c) (step_statusAgrees env hwb r c hag hidle.1) hidle.2

/-- A prefix of a sequence of calls made while idle is made while idle. -/
theorem callsWhileIdle_take (env : Env) (cs : List Call) (r : Run) (n : Nat)
    (hidle : Run.callsWhileIdle env r cs = true) :
    Run.callsWhileIdle env r (cs.take n) = true := by
  induction cs generalizing r n with
  | nil => simp [Run.callsWhileIdle]
  | cons c cs ih =>
    cases n with
    | zero => simp [Run.callsWhileIdle]
    | succ n =>
      simp only [Run.callsWhileIdle, Bool.and_eq_true, List.take_succ_cons] at hidle ⊢
      exact ⟨hidle.1, ih (Run.step env r c) n hidle.2⟩

/-- C14 (the claim as stated fails): with collaborators whose `is_running()`
is truthful, a SingBox engine is initialised and started, then `initialize`
is called again and fails because `openTun` answers an invalid handle; the
status is still Connected and `isRunning()` is false. -/
theorem c14_status_connected_but_not_running :
    WellBehaved reopenFailsEnv
    ∧ (Run.steps reopenFailsEnv (Run.begin createSingBoxEngine)
        [Call.init {} (some 0), Call.start, Call.init {} (some 0)]).results
      = [some true, some true, some false]
    ∧ (Run.steps reopenFailsEnv (Run.begin createSingBoxEngine)
        [Call.init {} (some 0), Call.start, Call.init {} (some 0)]).engine.getStatus
      = ConnectionStatus.CONNECTED
    ∧ IUnifiedEngine.isRunning reopenFailsEnv
        (Run.steps reopenFailsEnv (Run.begin createSingBoxEngine)
          [Call.init {} (some 0), Call.start, Call.init {} (some 0)]).log
        (Run.steps reopenFailsEnv (Run.begin createSingBoxEngine)
          [Call.init {} (some 0), Call.start, Call.init {} (some 0)]).engine
      = false :=
  ⟨fun _ => ⟨rfl, rfl⟩, by decide, by decide, by decide⟩

/-- C14 (amended): with collaborators whose `is_running()` is truthful, for
an engine made by the factory and every finite sequence of lifecycle calls
in which `initialize` and `start` are only called while `isRunning()` is
false (`stop` at any time): after each call the status is Connected if and
only if `isRunning()` is true.  In every state `isRunning()` is the
conjunction: core present and active, driver present and active (LibXray
and V2Ray), handle valid. -/
theorem c14_status_agrees_with_isRunning (env : Env) (hwb : WellBehaved env)
    (type : EngineConfig.CoreType) (e0 : IUnifiedEngine) (cs : List Call)
    (hcreate : UnifiedEngineFactory.create type = some e0)
    (hidle : Run.callsWhileIdle env (Run.begin e0) cs = true) :
    (∀ n, ((Run.steps env (Run.begin e0) (cs.take n)).engine.getStatus
          = ConnectionStatus.CONNECTED
        ↔ IUnifiedEngine.isRunning env (Run.steps env (Run.begin e0) (cs.take n)).log
            (Run.steps env (Run.begin e0) (cs.take n)).engine = true))
    ∧ (∀ (log : List Event) (e : IUnifiedEngine),
        IUnifiedEngine.isRunning env log e
          = (e.hasCore && env.coreIsRunning log
              && (!e.usesDriver || (e.hasDriver && env.driverIsRunning log))
              && e.tunHandle.isValid)) := by
  refine ⟨fun n => ?_, fun log e => ?_⟩
  · rw [← statusAgrees_iff]
    refine steps_statusAgrees env hwb _ _ ?_ (callsWhileIdle_take env cs _ n hidle)
    rw [statusAgrees_iff]
    have h0 := create_hasCore type e0 hcreate
    simp only [Run.begin]
    rw [isRunning_of_no_core env [] e0 h0]
    unfold UnifiedEngineFactory.create at hcreate
    split_ifs at hcreate <;> simp only [Option.some.injEq, reduceCtorEq] at hcreate <;>
      subst hcreate <;> decide
  · rcases e with e | e | e <;>
      simp [IUnifiedEngine.isRunning, SingBoxEngine.isRunning, LibXrayEngine.isRunning,
        V2RayEngine.isRunning, IUnifiedEngine.hasCore, IUnifiedEngine.usesDriver,
        IUnifiedEngine.hasDriver, IUnifiedEngine.tunHandle, Bool.and_assoc]

/-- C14 (amended) at a concrete input: a V2Ray engine taken through
`initialize`, `start`, `stop`; after the second call it is Connected and
running. -/
theorem c14_status_agrees_with_isRunning_witness :
    ((Run.steps grantingEnv (Run.begin createV2RayEngine)
        (List.take 2 [Call.init {} (some 0), Call.start, Call.stop])).engine.getStatus
      = ConnectionStatus.CONNECTED
    ↔ IUnifiedEngine.isRunning grantingEnv
        (Run.steps grantingEnv (Run.begin createV2RayEngine)
          (List.take 2 [Call.init {} (some 0), Call.start, Call.stop])).log
        (Run.steps grantingEnv (Run.begin createV2RayEngine)
          (List.take 2 [Call.init {} (some 0), Call.start, Call.stop])).engine = true)
    ∧ IUnifiedEngine.isRunning grantingEnv
        (Run.steps grantingEnv (Run.begin createV2RayEngine)
          (List.take 2 [Call.init {} (some 0), Call.start, Call.stop])).log
        (Run.steps grantingEnv (Run.begin createV2RayEngine)
          (List.take 2 [Call.init {} (some 0), Call.start, Call.stop])).engine = true :=
  ⟨(c14_status_agrees_with_isRunning grantingEnv (fun _ => ⟨rfl, rfl⟩)
      EngineConfig.CoreType.V2RAY createV2RayEngine
      [Call.init {} (some 0), Call.start, Call.stop] (by decide) (by decide)).1 2,
   by decide⟩

/-- The collaborators of `grantingEnv` always succeed. -/
theorem grantingEnv_alwaysSucceeds : AlwaysSucceeds grantingEnv :=
  ⟨fun _ _ => rfl, fun _ _ _ => rfl, fun _ _ => rfl, fun _ _ => rfl, fun _ => rfl,
    fun _ _ => rfl, fun _ => rfl⟩

/-- C15 (the claim as stated fails): with collaborators that always succeed
and a configuration that registers no status callback, the LibXray engine
goes through `initialize`, `start`, `stop`, `initialize`, `start` with every
call succeeding, and the second `start()` emits no status callback, so not
Connecting, Connected. -/
theorem c15_no_callback_registered :
    AlwaysSucceeds grantingEnv ∧ WellBehaved grantingEnv
    ∧ (Run.steps grantingEnv (Run.begin createLibXrayEngine)
        [Call.init {} (some 0), Call.start, Call.stop, Call.init {} (some 0),
         Call.start]).results
      = [some true, some true, none, some true, some true]
    ∧ statusCallbacks (IUnifiedEngine.start grantingEnv
        (Run.steps grantingEnv (Run.begin createLibXrayEngine)
          [Call.init {} (some 0), Call.start, Call.stop, Call.init {} (some 0)]).log
        (Run.steps grantingEnv (Run.begin createLibXrayEngine)
          [Call.init {} (some 0), Call.start, Call.stop, Call.init {} (some 0)]).engine).2.2
      ≠ [ConnectionStatus.CONNECTING, ConnectionStatus.CONNECTED] :=
  ⟨grantingEnv_alwaysSucceeds, fun _ => ⟨rfl, rfl⟩, by decide, by decide⟩

set_option maxHeartbeats 4000000 in
/-- C15 (amended): with collaborators that always succeed and whose
`is_running()` is truthful, for an engine made by the factory and a fixed
configuration, the sequence `initialize`, `start`, `stop`, `initialize`,
`start` makes both `initialize` calls and both `start` calls return true;
the second `start()` produces the same status callbacks as the first
(Connecting, Connected when a status callback is registered, none
otherwise), and after each of the two the status is Connected and
`isRunning()` is true. -/
theorem c15_round_trip (env : Env) (hok : AlwaysSucceeds env) (hwb : WellBehaved env)
    (type : EngineConfig.CoreType) (e0 : IUnifiedEngine) (config : EngineConfig) (p : Nat)
    (hcreate : UnifiedEngineFactory.create type = some e0) :
    (Run.steps env (Run.begin e0)
        [Call.init config (some p), Call.start, Call.stop, Call.init config (some p),
         Call.start]).results
      = [some true, some true, none, some true, some true]
    ∧ statusCallbacks (IUnifiedEngine.start env
        (Run.steps env (Run.begin e0)
          [Call.init config (some p), Call.start, Call.stop, Call.init config (some p)]).log
        (Run.steps env (Run.begin e0)
          [Call.init config (some p), Call.start, Call.stop,
           Call.init config (some p)]).engine).2.2
      = statusCallbacks (IUnifiedEngine.start env
        (Run.steps env (Run.begin e0) [Call.init config (some p)]).log
        (Run.steps env (Run.begin e0) [Call.init config (some p)]).engine).2.2
    ∧ statusCallbacks (IUnifiedEngine.start env
        (Run.steps env (Run.begin e0) [Call.init config (some p)]).log
        (Run.steps env (Run.begin e0) [Call.init config (some p)]).engine).2.2
      = (if config.status_callback
          then [ConnectionStatus.CONNECTING, ConnectionStatus.CONNECTED] else [])
    ∧ (Run.steps env (Run.begin e0)
        [Call.init config (some p), Call.start]).engine.getStatus
      = ConnectionStatus.CONNECTED
    ∧ (Run.steps env (Run.begin e0)
        [Call.init config (some p), Call.start, Call.stop, Call.init config (some p),
         Call.start]).engine.getStatus
      = ConnectionStatus.CONNECTED
    ∧ IUnifiedEngine.isRunning env
        (Run.steps env (Run.begin e0) [Call.init config (some p), Call.start]).log
        (Run.steps env (Run.begin e0) [Call.init config (some p), Call.start]).engine
      = true
    ∧ IUnifiedEngine.isRunning env
        (Run.steps env (Run.begin e0)
          [Call.init config (some p), Call.start, Call.stop, Call.init config (some p),
           Call.start]).log
        (Run.steps env (Run.begin e0)
          [Call.init config (some p), Call.start, Call.stop, Call.init config (some p),
           Call.start]).engine
      = true := by
  obtain ⟨k1, k2, k3, k4, k5, k6, k7⟩ := hok
  have hc := fun l => (hwb l).1
  have hd := fun l => (hwb l).2
  unfold UnifiedEngineFactory.create at hcreate
  split_ifs at hcreate <;> simp only [Option.some.injEq, reduceCtorEq] at hcreate <;>
    subst hcreate <;>
    cases hcb : config.status_callback <;> cases har : config.tun_options.auto_route <;>
    simp [Run.steps, Run.step, Run.begin, createSingBoxEngine, createLibXrayEngine,
      createV2RayEngine, IUnifiedEngine.initialize, IUnifiedEngine.start, IUnifiedEngine.stop,
      IUnifiedEngine.isRunning, IUnifiedEngine.getStatus,
      SingBoxEngine.initialize, SingBoxEngine.start, SingBoxEngine.stop,
      SingBoxEngine.isRunning, SingBoxEngine.getStatus,
      LibXrayEngine.initialize, LibXrayEngine.start, LibXrayEngine.stop,
      LibXrayEngine.isRunning, LibXrayEngine.getStatus,
      V2RayEngine.initialize, V2RayEngine.start, V2RayEngine.stop,
      V2RayEngine.isRunning, V2RayEngine.getStatus,
      notify, routeEvents, statusCallbacks, coreActive, driverActive, List.foldl_append,
      k1, k2, k3, k4, k5, k6, k7, hc, hd, hcb, har]

/-- C15 (amended) at a concrete input: the LibXray engine with a registered
status callback. -/
theorem c15_round_trip_witness :
    (Run.steps grantingEnv (Run.begin createLibXrayEngine)
        [Call.init callbackConfig (some 0), Call.start, Call.stop,
         Call.init callbackConfig (some 0), Call.start]).results
      = [some true, some true, none, some true, some true]
    ∧ statusCallbacks (IUnifiedEngine.start grantingEnv
        (Run.steps grantingEnv (Run.begin createLibXrayEngine)
          [Call.init callbackConfig (some 0)]).log
        (Run.steps grantingEnv (Run.begin createLibXrayEngine)
          [Call.init callbackConfig (some 0)]).engine).2.2
      = [ConnectionStatus.CONNECTING, ConnectionStatus.CONNECTED] :=
  ⟨(c15_round_trip grantingEnv grantingEnv_alwaysSucceeds (fun _ => ⟨rfl, rfl⟩)
      EngineConfig.CoreType.LIBXRAY createLibXrayEngine callbackConfig 0 (by decide)).1,
   (c15_round_trip grantingEnv grantingEnv_alwaysSucceeds (fun _ => ⟨rfl, rfl⟩)
      EngineConfig.CoreType.LIBXRAY createLibXrayEngine callbackConfig 0
      (by decide)).2.2.1.trans (by decide)⟩

/-- C17: in every state, after every history and for every configuration,
`initialize` with a null platform returns false, leaves every member
unchanged (stored configuration, platform, core, driver, handle, status)
and produces no event: no callback and no collaborator call. -/
theorem c17_null_platform (env : Env) (log : List Event) (self : IUnifiedEngine)
    (config : EngineConfig) :
    IUnifiedEngine.initialize env log self config none = (false, self, []) := by
  rcases self with e | e | e <;> rfl

/-- C18: `requiresDriver` answers false for exactly one variant, SINGBOX,
and true for every other value of the selector: LIBXRAY, V2RAY, WIREGUARD
and every unrecognized value. -/
theorem c18_requiresDriver :
    (∀ type, UnifiedEngineFactory.requiresDriver type = false
        ↔ type = EngineConfig.CoreType.SINGBOX)
    ∧ (∀ type, type ≠ EngineConfig.CoreType.SINGBOX →
        UnifiedEngineFactory.requiresDriver type = true)
    ∧ UnifiedEngineFactory.requiresDriver EngineConfig.CoreType.SINGBOX = false
    ∧ UnifiedEngineFactory.requiresDriver EngineConfig.CoreType.LIBXRAY = true
    ∧ UnifiedEngineFactory.requiresDriver EngineConfig.CoreType.V2RAY = true
    ∧ UnifiedEngineFactory.requiresDriver EngineConfig.CoreType.WIREGUARD = true := by
  refine ⟨fun type => ?_, fun type h => ?_, by decide, by decide, by decide, by decide⟩
  · unfold UnifiedEngineFactory.requiresDriver
    split_ifs <;> simp_all
  · unfold UnifiedEngineFactory.requiresDriver
    split_ifs <;> simp_all

/-- C19: for every core variant, `getRecommendedDriver` is HEV_SOCKS5 when
`requiresDriver` is true and NONE when it is false; it is NONE if and only
if the variant is SINGBOX. -/
theorem c19_getRecommendedDriver (type : EngineConfig.CoreType) :
    (UnifiedEngineFactory.requiresDriver type = true →
      UnifiedEngineFactory.getRecommendedDriver type = EngineConfig.DriverType.HEV_SOCKS5)
    ∧ (UnifiedEngineFactory.requiresDriver type = false →
      UnifiedEngineFactory.getRecommendedDriver type = EngineConfig.DriverType.NONE)
    ∧ (UnifiedEngineFactory.getRecommendedDriver type = EngineConfig.DriverType.NONE
      ↔ type = EngineConfig.CoreType.SINGBOX) := by
  unfold UnifiedEngineFactory.getRecommendedDriver UnifiedEngineFactory.requiresDriver
  split_ifs <;> simp_all

/-- On an engine that holds a core and a valid handle but no driver,
`start()` is rejected at its precondition exactly when the class of the
engine has a driver member. -/
theorem start_without_driver (env : Env) (log : List Event) (s : IUnifiedEngine)
    (hc : s.hasCore = true) (hv : s.tunHandle.isValid = true) (hd : s.hasDriver = false) :
    IUnifiedEngine.start env log s = (false, s, []) ↔ s.usesDriver = true := by
  rcases s with e | e | e
  · simp only [IUnifiedEngine.hasCore, IUnifiedEngine.tunHandle] at hc hv
    simp only [IUnifiedEngine.start, SingBoxEngine.start, hc, hv, IUnifiedEngine.usesDriver,
      Bool.not_true, Bool.or_self, Bool.false_eq_true, if_false]
    split_ifs <;> simp
  · simp only [IUnifiedEngine.hasDriver] at hd
    simp [IUnifiedEngine.start, LibXrayEngine.start, hd, IUnifiedEngine.usesDriver]
  · simp only [IUnifiedEngine.hasDriver] at hd
    simp [IUnifiedEngine.start, V2RayEngine.start, hd, IUnifiedEngine.usesDriver]

/-- C20: when `create` returns an engine for a variant, the variant is
SINGBOX, LIBXRAY or V2RAY and the engine is the implementation for it
(`getName()` is "SingBox", "LibXray", "V2Ray"); the engine is freshly
constructed (status Disconnected, not running, no core, no driver, invalid
handle, no platform); the precondition of `start()` of that engine class
demands a driver (an engine of the class holding a core and a valid handle
but no driver is rejected) if and only if `requiresDriver` is true for the
variant; and for every value other than SINGBOX, LIBXRAY and V2RAY, so for
every unrecognized variant, `create` returns no engine. -/
theorem c20_create_matching_engine (type : EngineConfig.CoreType) (e : IUnifiedEngine)
    (hcreate : UnifiedEngineFactory.create type = some e) :
    (type = EngineConfig.CoreType.SINGBOX ∨ type = EngineConfig.CoreType.LIBXRAY
      ∨ type = EngineConfig.CoreType.V2RAY)
    ∧ (type = EngineConfig.CoreType.SINGBOX → e.getName = "SingBox")
    ∧ (type = EngineConfig.CoreType.LIBXRAY → e.getName = "LibXray")
    ∧ (type = EngineConfig.CoreType.V2RAY → e.getName = "V2Ray")
    ∧ e.getStatus = ConnectionStatus.DISCONNECTED
    ∧ (∀ env log, IUnifiedEngine.isRunning env log e = false)
    ∧ e.hasCore = false ∧ e.hasDriver = false ∧ e.tunHandle.isValid = false
    ∧ e.platform = none
    ∧ (∀ env log (s : IUnifiedEngine), s.getName = e.getName →
        s.hasCore = true → s.tunHandle.isValid = true → s.hasDriver = false →
        (IUnifiedEngine.start env log s = (false, s, [])
          ↔ UnifiedEngineFactory.requiresDriver type = true))
    ∧ (∀ t, t ≠ EngineConfig.CoreType.SINGBOX → t ≠ EngineConfig.CoreType.LIBXRAY →
        t ≠ EngineConfig.CoreType.V2RAY → UnifiedEngineFactory.create t = none) := by
  have hlast : ∀ t, t ≠ EngineConfig.CoreType.SINGBOX → t ≠ EngineConfig.CoreType.LIBXRAY →
      t ≠ EngineConfig.CoreType.V2RAY → UnifiedEngineFactory.create t = none := by
    intro t h1 h2 h3
    simp [UnifiedEngineFactory.create, h1, h2, h3]
  have hname : ∀ s : IUnifiedEngine,
      (s.getName = "SingBox" ↔ s.usesDriver = false)
      ∧ (s.getName = "LibXray" → s.usesDriver = true)
      ∧ (s.getName = "V2Ray" → s.usesDriver = true) := by
    intro s
    rcases s with x | x | x <;>
      simp [IUnifiedEngine.getName, SingBoxEngine.getName, LibXrayEngine.getName,
        V2RayEngine.getName, IUnifiedEngine.usesDriver]
  unfold UnifiedEngineFactory.create at hcreate
  split_ifs at hcreate with h1 h2 h3 <;>
    simp only [Option.some.injEq, reduceCtorEq] at hcreate <;> subst hcreate
  · subst h1
    refine ⟨Or.inl rfl, fun _ => rfl, by decide, by decide, rfl,
      fun env log => isRunning_of_no_core env log _ rfl, rfl, rfl, by decide, rfl, ?_, hlast⟩
    intro env log s hn hc hv hd
    rw [start_without_driver env log s hc hv hd]
    have := (hname s).1.mp hn
    simp [this, UnifiedEngineFactory.requiresDriver]
  · subst h2
    refine ⟨Or.inr (Or.inl rfl), by decide, fun _ => rfl, by decide, rfl,
      fun env log => isRunning_of_no_core env log _ rfl, rfl, rfl, by decide, rfl, ?_, hlast⟩
    intro env log s hn hc hv hd
    rw [start_without_driver env log s hc hv hd]
    have := (hname s).2.1 hn
    simp [this, UnifiedEngineFactory.requiresDriver, EngineConfig.CoreType.LIBXRAY,
      EngineConfig.CoreType.SINGBOX]
  · subst h3
    refine ⟨Or.inr (Or.inr rfl), by decide, by decide, fun _ => rfl, rfl,
      fun env log => isRunning_of_no_core env log _ rfl, rfl, rfl, by decide, rfl, ?_, hlast⟩
    intro env log s hn hc hv hd
    rw [start_without_driver env log s hc hv hd]
    have := (hname s).2.2 hn
    simp [this, UnifiedEngineFactory.requiresDriver, EngineConfig.CoreType.V2RAY,
      EngineConfig.CoreType.SINGBOX]

/-- C20 at a concrete input: the engine `create` returns for LIBXRAY. -/
theorem c20_create_matching_engine_witness :
    createLibXrayEngine.getName = "LibXray"
    ∧ createLibXrayEngine.getStatus = ConnectionStatus.DISCONNECTED
    ∧ (IUnifiedEngine.start grantingEnv []
          (IUnifiedEngine.libxray
            { platform_ := some 0, core_ := some (), tun_handle_ := handle3 })
        = (false, IUnifiedEngine.libxray
            { platform_ := some 0, core_ := some (), tun_handle_ := handle3 }, [])
      ↔ UnifiedEngineFactory.requiresDriver EngineConfig.CoreType.LIBXRAY = true) :=
  ⟨(c20_create_matching_engine EngineConfig.CoreType.LIBXRAY createLibXrayEngine
      (by decide)).2.2.1 rfl,
   (c20_create_matching_engine EngineConfig.CoreType.LIBXRAY createLibXrayEngine
      (by decide)).2.2.2.2.1,
   (c20_create_matching_engine EngineConfig.CoreType.LIBXRAY createLibXrayEngine
      (by decide)).2.2.2.2.2.2.2.2.2.2.1 grantingEnv [] _ (by decide) (by decide) (by decide)
      (by decide)⟩

/-- C21 (the claim as stated fails): for the enumerated variant WIREGUARD
`create` returns the no-engine result. -/
theorem c21_wireguard_has_no_engine :
    UnifiedEngineFactory.create EngineConfig.CoreType.WIREGUARD = none := by
  decide

/-- C21 (amended): there is one concrete engine for each of the three
variants SINGBOX, LIBXRAY and V2RAY, which `create` returns; for the fourth
enumerated variant, WIREGUARD, `create` returns the no-engine result. -/
theorem c21_create_three_engines :
    UnifiedEngineFactory.create EngineConfig.CoreType.SINGBOX = some createSingBoxEngine
    ∧ UnifiedEngineFactory.create EngineConfig.CoreType.LIBXRAY = some createLibXrayEngine
    ∧ UnifiedEngineFactory.create EngineConfig.CoreType.V2RAY = some createV2RayEngine
    ∧ UnifiedEngineFactory.create EngineConfig.CoreType.WIREGUARD = none := by
  decide

/-- A lifecycle call on a SingBox engine leaves a SingBox engine and produces
no driver event. -/
theorem singbox_step (env : Env) (e : SingBoxEngine) (log : List Event)
    (res : List (Option Bool)) (c : Call) :
    ∃ e' evs x,
      Run.step env { engine := IUnifiedEngine.singbox e, log := log, results := res } c
        = { engine := IUnifiedEngine.singbox e', log := log ++ evs, results := res ++ [x] }
      ∧ ∀ ev ∈ evs, isDriverEvent ev = false := by
  rcases c with ⟨config, platform⟩ | _ | _
  · refine ⟨( SingBoxEngine.initialize env log e config platform).2.1,
      ( SingBoxEngine.initialize env log e config platform).2.2,
      some ( SingBoxEngine.initialize env log e config platform).1, rfl, ?_⟩
    rcases platform with _ | p
    · simp [ SingBoxEngine.initialize]
    · simp only [ SingBoxEngine.initialize]
      split_ifs <;> cases har : config.tun_options.auto_route <;>
        simp [routeEvents, isDriverEvent, har]
  · refine ⟨(SingBoxEngine.start env log e).2.1, (SingBoxEngine.start env log e).2.2,
      some (SingBoxEngine.start env log e).1, rfl, ?_⟩
    simp only [SingBoxEngine.start]
    split_ifs <;> cases hcb : e.config_.status_callback <;>
      simp [notify, isDriverEvent, hcb]
  · refine ⟨(SingBoxEngine.stop env log e).1, (SingBoxEngine.stop env log e).2, none, rfl, ?_⟩
    simp only [SingBoxEngine.stop]
    split_ifs <;> rcases hp : e.platform_ with _ | p <;>
      cases hcb : e.config_.status_callback <;>
      simp [notify, isDriverEvent, hcb]

/-- A sequence of lifecycle calls on a SingBox engine, started after a
history without driver events, leaves a SingBox engine and a history
without driver events. -/
theorem singbox_steps (env : Env) (cs : List Call) (e : SingBoxEngine) (log : List Event)
    (res : List (Option Bool)) (hlog : ∀ ev ∈ log, isDriverEvent ev = false) :
    ∃ e' log' res',
      Run.steps env { engine := IUnifiedEngine.singbox e, log := log, results := res } cs
        = { engine := IUnifiedEngine.singbox e', log := log', results := res' }
      ∧ ∀ ev ∈ log', isDriverEvent ev = false := by
  induction cs generalizing e log res with
  | nil => exact ⟨e, log, res, rfl, hlog⟩
  | cons c cs ih =>
    obtain ⟨e1, evs, x, h1, h2⟩ := singbox_step env e log res c
    simp only [Run.steps, List.foldl_cons] at ih ⊢
    rw [h1]
    refine ih e1 (log ++ evs) (res ++ [x]) ?_
    intro ev hev
    rcases List.mem_append.mp hev with h | h
    · exact hlog ev h
    · exact h2 ev h

/-- The destructor of a SingBox engine produces no driver event. -/
theorem singbox_destructor (env : Env) (log : List Event) (e : SingBoxEngine) :
    ∀ ev ∈ IUnifiedEngine.destructor env log (IUnifiedEngine.singbox e),
      isDriverEvent ev = false := by
  simp only [IUnifiedEngine.destructor, SingBoxEngine.destructor, SingBoxEngine.stop]
  split_ifs <;> rcases hp : e.platform_ with _ | p <;>
    cases hcb : e.config_.status_callback <;>
    simp [notify, isDriverEvent, hcb]

/-- A lifecycle call on a SingBox engine does not depend on what the driver
factory and the drivers would answer. -/
theorem singbox_step_ignores_driver (env : Env) (a : List Event → DriverType → Bool)
    (b : List Event → DriverConfig → Bool) (c d : List Event → Bool)
    (e : SingBoxEngine) (log : List Event) (res : List (Option Bool)) (call : Call) :
    Run.step { env with driverCreate := a, driverInitialize := b, driverStart := c,
                        driverIsRunning := d }
        { engine := IUnifiedEngine.singbox e, log := log, results := res } call
      = Run.step env { engine := IUnifiedEngine.singbox e, log := log, results := res } call := by
  cases call <;> rfl

/-- A sequence of lifecycle calls on a SingBox engine does not depend on
what the driver factory and the drivers would answer. -/
theorem singbox_steps_ignore_driver (env : Env) (a : List Event → DriverType → Bool)
    (b : List Event → DriverConfig → Bool) (c d : List Event → Bool) (cs : List Call)
    (e : SingBoxEngine) (log : List Event) (res : List (Option Bool)) :
    Run.steps { env with driverCreate := a, driverInitialize := b, driverStart := c,
                         driverIsRunning := d }
        { engine := IUnifiedEngine.singbox e, log := log, results := res } cs
      = Run.steps env { engine := IUnifiedEngine.singbox e, log := log, results := res } cs := by
  induction cs generalizing e log res with
  | nil => rfl
  | cons call cs ih =>
    obtain ⟨e1, evs, x, h1, -⟩ := singbox_step env e log res call
    simp only [Run.steps, List.foldl_cons] at ih ⊢
    rw [singbox_step_ignores_driver, h1]
    exact ih e1 (log ++ evs) (res ++ [x])

/-- C22: `requiresDriver(SINGBOX)` is false, `create(SINGBOX)` is the SingBox
engine, and for every collaborator behaviour and every finite sequence of
`initialize` (with any configuration, so also one whose `driver_type` is
HEV_SOCKS5 or TUN2SOCKS), `start` and `stop` calls on it, followed by its
destruction: the history holds no driver event (no driver is created, no
driver method is called), the engine holds no driver, and nothing changes
when the answers of the driver factory and of the drivers, `is_running()`
included, are replaced by any others, so they are never consulted. -/
theorem c22_singbox_never_uses_a_driver (env : Env) (cs : List Call) :
    UnifiedEngineFactory.requiresDriver EngineConfig.CoreType.SINGBOX = false
    ∧ UnifiedEngineFactory.create EngineConfig.CoreType.SINGBOX = some createSingBoxEngine
    ∧ (∀ ev ∈ (Run.steps env (Run.begin createSingBoxEngine) cs).log
          ++ IUnifiedEngine.destructor env (Run.steps env (Run.begin createSingBoxEngine) cs).log
              (Run.steps env (Run.begin createSingBoxEngine) cs).engine,
        isDriverEvent ev = false)
    ∧ (Run.steps env (Run.begin createSingBoxEngine) cs).engine.hasDriver = false
    ∧ (∀ (a : List Event → DriverType → Bool) (b : List Event → DriverConfig → Bool)
        (c d : List Event → Bool),
        Run.steps { env with driverCreate := a, driverInitialize := b, driverStart := c,
                             driverIsRunning := d } (Run.begin createSingBoxEngine) cs
          = Run.steps env (Run.begin createSingBoxEngine) cs
        ∧ IUnifiedEngine.destructor
            { env with driverCreate := a, driverInitialize := b, driverStart := c,
                       driverIsRunning := d }
            (Run.steps env (Run.begin createSingBoxEngine) cs).log
            (Run.steps env (Run.begin createSingBoxEngine) cs).engine
          = IUnifiedEngine.destructor env (Run.steps env (Run.begin createSingBoxEngine) cs).log
            (Run.steps env (Run.begin createSingBoxEngine) cs).engine) := by
  obtain ⟨e', log', res', h1, h2⟩ := singbox_steps env cs {} [] []
    (fun ev hev => absurd hev (List.not_mem_nil ev))
  have hb : Run.begin createSingBoxEngine
      = { engine := IUnifiedEngine.singbox {}, log := [], results := [] } := rfl
  rw [hb, h1]
  refine ⟨by decide, by decide, ?_, rfl, fun a b c d => ⟨?_, rfl⟩⟩
  · intro ev hev
    rcases List.mem_append.mp hev with h | h
    · exact h2 ev h
    · exact singbox_destructor env log' e' ev h
  · rw [← h1]
    exact singbox_steps_ignore_driver env a b c d cs {} [] []

/-- C23 (the claim as stated fails): the default configuration requests no
driver variant (`driver_type` is NONE), and `initialize` still reaches the
driver step on both driver-based engines: V2Ray creates a TUN2SOCKS driver
and LibXray an HEV_SOCKS5 driver, each initialised with a configuration of
type TUN2SOCKS, so the variant created and the type passed are not a variant
the configuration requested. -/
theorem c23_no_driver_requested :
    ({} : EngineConfig).driver_type = EngineConfig.DriverType.NONE
    ∧ requestedDriver {} = none
    ∧ Event.driverCreate DriverType.TUN2SOCKS true
        ∈ ( IUnifiedEngine.initialize grantingEnv [] createV2RayEngine {} (some 0)).2.2
    ∧ Event.driverCreate DriverType.HEV_SOCKS5 true
        ∈ ( IUnifiedEngine.initialize grantingEnv [] createLibXrayEngine {} (some 0)).2.2
    ∧ Event.driverInitialize (driverConfigOf {}) true
        ∈ ( IUnifiedEngine.initialize grantingEnv [] createV2RayEngine {} (some 0)).2.2
    ∧ Event.driverInitialize (driverConfigOf {}) true
        ∈ ( IUnifiedEngine.initialize grantingEnv [] createLibXrayEngine {} (some 0)).2.2
    ∧ (driverConfigOf {}).type = DriverType.TUN2SOCKS
    ∧ requestedDriver {} ≠ some DriverType.TUN2SOCKS
    ∧ requestedDriver {} ≠ some DriverType.HEV_SOCKS5 := by
  decide

/-- C23 (amended): on LibXray and V2Ray, for every configuration, every
driver configuration the call of `initialize` passes to the driver's
`initialize` is the projection `driverConfigOf` of the input: its mtu,
tun_name, tun_address, tun_gateway, tun_netmask and dns_server are the
TunOptions fields mtu, tun_name, ipv4_address, ipv4_gateway, ipv4_netmask
and dns_server, and its config_json is the core payload.  When the
configuration requests a driver variant `d` (HEV_SOCKS5 or TUN2SOCKS), every
driver the call creates is of variant `d` and the type of the driver
configuration is `d`.  When it requests none, the type of the driver
configuration is TUN2SOCKS.  On V2Ray the driver created is, for every
configuration, of the variant named by the type of the driver
configuration. -/
theorem c23_driver_step (env : Env) (log : List Event) (self : IUnifiedEngine)
    (config : EngineConfig) (platform : Option Nat)
    (huses : self.usesDriver = true) :
    (∀ cfg ok, Event.driverInitialize cfg ok
        ∈ ( IUnifiedEngine.initialize env log self config platform).2.2 →
        cfg = driverConfigOf config
        ∧ cfg.mtu = config.tun_options.mtu
        ∧ cfg.tun_name = config.tun_options.tun_name
        ∧ cfg.tun_address = config.tun_options.ipv4_address
        ∧ cfg.tun_gateway = config.tun_options.ipv4_gateway
        ∧ cfg.tun_netmask = config.tun_options.ipv4_netmask
        ∧ cfg.dns_server = config.tun_options.dns_server
        ∧ cfg.config_json = config.config_json)
    ∧ (∀ d, requestedDriver config = some d →
        (∀ ty ok, Event.driverCreate ty ok
          ∈ ( IUnifiedEngine.initialize env log self config platform).2.2 → ty = d)
        ∧ (∀ cfg ok, Event.driverInitialize cfg ok
          ∈ ( IUnifiedEngine.initialize env log self config platform).2.2 → cfg.type = d))
    ∧ (requestedDriver config = none → (driverConfigOf config).type = DriverType.TUN2SOCKS)
    ∧ (∀ e, self = IUnifiedEngine.v2ray e →
        ∀ ty ok, Event.driverCreate ty ok
          ∈ ( IUnifiedEngine.initialize env log self config platform).2.2 →
          ty = (driverConfigOf config).type) := by
  have htype : ∀ d, requestedDriver config = some d →
      (driverConfigOf config).type = d ∧ LibXrayEngine.driverTypeOf config = d := by
    intro d hreq
    unfold requestedDriver at hreq
    cases hdt : config.driver_type <;> rw [hdt] at hreq <;>
      simp only [Option.some.injEq, reduceCtorEq] at hreq <;> subst hreq <;>
      simp [driverConfigOf, LibXrayEngine.driverTypeOf, hdt]
  have hnone : requestedDriver config = none →
      (driverConfigOf config).type = DriverType.TUN2SOCKS := by
    intro hreq
    cases hdt : config.driver_type
    · simp [driverConfigOf, hdt]
    · simp [requestedDriver, hdt] at hreq
    · simp [requestedDriver, hdt] at hreq
  generalize hr : IUnifiedEngine.initialize env log self config platform = r
  have hinit : ∀ cfg ok, Event.driverInitialize cfg ok ∈ r.2.2 → cfg = driverConfigOf config := by
    rcases self with e | e | e
    · simp [IUnifiedEngine.usesDriver] at huses
    · rcases platform with _ | p
      · simp only [ IUnifiedEngine.initialize, LibXrayEngine.initialize] at hr
        subst hr
        simp
      · simp only [ IUnifiedEngine.initialize, LibXrayEngine.initialize] at hr
        split_ifs at hr <;> subst hr <;> cases har : config.tun_options.auto_route <;>
          simp [routeEvents, har]
    · rcases platform with _ | p
      · simp only [ IUnifiedEngine.initialize, V2RayEngine.initialize] at hr
        subst hr
        simp
      · simp only [ IUnifiedEngine.initialize, V2RayEngine.initialize] at hr
        split_ifs at hr <;> subst hr <;> cases har : config.tun_options.auto_route <;>
          simp [routeEvents, har]
  have hcreate : ∀ ty ok, Event.driverCreate ty ok ∈ r.2.2 →
      (ty = (driverConfigOf config).type ∧ ∃ e, self = IUnifiedEngine.v2ray e)
      ∨ (ty = LibXrayEngine.driverTypeOf config ∧ ∃ e, self = IUnifiedEngine.libxray e) := by
    rcases self with e | e | e
    · simp [IUnifiedEngine.usesDriver] at huses
    · rcases platform with _ | p
      · simp only [ IUnifiedEngine.initialize, LibXrayEngine.initialize] at hr
        subst hr
        simp
      · simp only [ IUnifiedEngine.initialize, LibXrayEngine.initialize] at hr
        split_ifs at hr <;> subst hr <;> cases har : config.tun_options.auto_route <;>
          simp [routeEvents, har]
    · rcases platform with _ | p
      · simp only [ IUnifiedEngine.initialize, V2RayEngine.initialize] at hr
        subst hr
        simp
      · simp only [ IUnifiedEngine.initialize, V2RayEngine.initialize] at hr
        split_ifs at hr <;> subst hr <;> cases har : config.tun_options.auto_route <;>
          simp [routeEvents, har]
  refine ⟨?_, ?_, hnone, ?_⟩
  · intro cfg ok hmem
    have h := hinit cfg ok hmem
    subst h
    exact ⟨rfl, rfl, rfl, rfl, rfl, rfl, rfl, rfl⟩
  · intro d hreq
    obtain ⟨ht1, ht2⟩ := htype d hreq
    refine ⟨?_, ?_⟩
    · intro ty ok hmem
      rcases hcreate ty ok hmem with ⟨h, -⟩ | ⟨h, -⟩
      · rw [h, ht1]
      · rw [h, ht2]
    · intro cfg ok hmem
      rw [hinit cfg ok hmem, ht1]
  · intro e he ty ok hmem
    rcases hcreate ty ok hmem with ⟨h, -⟩ | ⟨-, e', he'⟩
    · exact h
    · rw [he] at he'
      cases he'

/-- C23 (amended) at a concrete input: the LibXray engine with a
configuration that requests TUN2SOCKS. -/
theorem c23_driver_step_witness :
    ( IUnifiedEngine.initialize grantingEnv [] createLibXrayEngine tun2socksConfig (some 0)).2.2
      = [Event.checkPrivileges 0 true, Event.openTun 0 {} handle3,
         Event.driverCreate DriverType.TUN2SOCKS true,
         Event.driverInitialize (driverConfigOf tun2socksConfig) true, Event.coreNew,
         Event.coreInitialize (coreConfigOf tun2socksConfig) true,
         Event.setupRoutes 0 {} true]
    ∧ (driverConfigOf tun2socksConfig).type = DriverType.TUN2SOCKS
    ∧ (driverConfigOf tun2socksConfig).mtu = tun2socksConfig.tun_options.mtu :=
  ⟨by decide,
   ((c23_driver_step grantingEnv [] createLibXrayEngine tun2socksConfig (some 0)
      (by decide)).2.1 DriverType.TUN2SOCKS (by decide)).2 (driverConfigOf tun2socksConfig)
      true (by decide),
   ((c23_driver_step grantingEnv [] createLibXrayEngine tun2socksConfig (some 0)
      (by decide)).1 (driverConfigOf tun2socksConfig) true (by decide)).2.1⟩

/-- C24: `getVersion()` is "Unknown" whenever the engine holds no core, in
particular on the three freshly constructed engines, and is the core's
`get_version()` answer whenever a core is held.  It is a `const` method: it
yields a string and has no member or event to change. -/
theorem c24_getVersion (env : Env) (log : List Event) (self : IUnifiedEngine) :
    (self.hasCore = false → IUnifiedEngine.getVersion env log self = "Unknown")
    ∧ (self.hasCore = true → IUnifiedEngine.getVersion env log self = env.coreVersion log)
    ∧ IUnifiedEngine.getVersion env log createSingBoxEngine = "Unknown"
    ∧ IUnifiedEngine.getVersion env log createLibXrayEngine = "Unknown"
    ∧ IUnifiedEngine.getVersion env log createV2RayEngine = "Unknown" := by
  refine ⟨?_, ?_, rfl, rfl, rfl⟩
  · intro h
    rcases self with e | e | e <;> simp only [IUnifiedEngine.hasCore] at h <;>
      simp [IUnifiedEngine.getVersion, SingBoxEngine.getVersion, LibXrayEngine.getVersion,
        V2RayEngine.getVersion, h]
  · intro h
    rcases self with e | e | e <;> simp only [IUnifiedEngine.hasCore] at h <;>
      simp [IUnifiedEngine.getVersion, SingBoxEngine.getVersion, LibXrayEngine.getVersion,
        V2RayEngine.getVersion, h]

/-- C24 at a concrete input: an initialised SingBox engine reports the
version of its core. -/
theorem c24_getVersion_witness :
    IUnifiedEngine.getVersion grantingEnv [] readySingBox = "1.0" :=
  (c24_getVersion grantingEnv [] readySingBox).2.1 (by decide)

/-- C25 (the code departs from the claim): with the default configuration,
whose `driver_type` is NONE, and the same collaborators, `initialize` on the
LibXray engine creates an HEV_SOCKS5 driver and initialises it with a driver
configuration whose type is TUN2SOCKS, while `initialize` on the V2Ray
engine creates a TUN2SOCKS driver: the two engines do not produce the same
collaborator calls, and on LibXray the variant created is not the type of
the configuration it is initialised with. -/
theorem c25_default_driver_differs :
    ({} : EngineConfig).driver_type = EngineConfig.DriverType.NONE
    ∧ ( IUnifiedEngine.initialize grantingEnv [] createLibXrayEngine {} (some 0)).2.2
      = [Event.checkPrivileges 0 true, Event.openTun 0 {} handle3,
         Event.driverCreate DriverType.HEV_SOCKS5 true,
         Event.driverInitialize (driverConfigOf {}) true, Event.coreNew,
         Event.coreInitialize (coreConfigOf {}) true, Event.setupRoutes 0 {} true]
    ∧ (driverConfigOf {}).type = DriverType.TUN2SOCKS
    ∧ ( IUnifiedEngine.initialize grantingEnv [] createV2RayEngine {} (some 0)).2.2
      = [Event.checkPrivileges 0 true, Event.openTun 0 {} handle3,
         Event.driverCreate DriverType.TUN2SOCKS true,
         Event.driverInitialize (driverConfigOf {}) true, Event.coreNew,
         Event.coreInitialize (coreConfigOf {}) true, Event.setupRoutes 0 {} true] := by
  decide

/-- `start()` is the same on a LibXray engine and on the V2Ray engine with
the same members. -/
theorem libxray_v2ray_start (env : Env) (log : List Event) (e : LibXrayEngine) :
    ((LibXrayEngine.start env log e).1, (LibXrayEngine.start env log e).2.1.asV2Ray,
        (LibXrayEngine.start env log e).2.2)
      = V2RayEngine.start env log e.asV2Ray := by
  simp only [LibXrayEngine.start, V2RayEngine.start, LibXrayEngine.asV2Ray]
  split_ifs <;> rfl

/-- `stop()` is the same on a LibXray engine and on the V2Ray engine with the
same members. -/
theorem libxray_v2ray_stop (env : Env) (log : List Event) (e : LibXrayEngine) :
    ((LibXrayEngine.stop env log e).1.asV2Ray, (LibXrayEngine.stop env log e).2)
      = V2RayEngine.stop env log e.asV2Ray := by
  simp only [LibXrayEngine.stop, V2RayEngine.stop, LibXrayEngine.asV2Ray,
    LibXrayEngine.isRunning, V2RayEngine.isRunning]
  split_ifs <;> rfl

/-- `initialize` is the same on a LibXray engine and on the V2Ray engine
with the same members when the configuration requests HEV_SOCKS5 or
TUN2SOCKS. -/
theorem libxray_v2ray_initialize (env : Env) (log : List Event) (e : LibXrayEngine)
    (config : EngineConfig) (platform : Option Nat)
    (hreq : config.driver_type ≠ EngineConfig.DriverType.NONE) :
    (( LibXrayEngine.initialize env log e config platform).1,
        ( LibXrayEngine.initialize env log e config platform).2.1.asV2Ray,
        ( LibXrayEngine.initialize env log e config platform).2.2)
      = V2RayEngine.initialize env log e.asV2Ray config platform := by
  have ht : LibXrayEngine.driverTypeOf config = (driverConfigOf config).type := by
    cases hdt : config.driver_type <;> simp_all [driverConfigOf, LibXrayEngine.driverTypeOf]
  rcases platform with _ | p
  · rfl
  · simp only [ LibXrayEngine.initialize, V2RayEngine.initialize, LibXrayEngine.asV2Ray, ht]
    split_ifs <;> rfl

/-- C26 (the code departs from the claim): on a freshly constructed SingBox
engine, `initialize` fails in the core after `openTun` answered handle 3 and
closes it; `start()` then succeeds on the core and the closed handle left
behind, and `stop()` closes the same handle a second time. -/
theorem c26_double_close :
    (Run.steps coreInitFailsEnv (Run.begin createSingBoxEngine)
      [Call.init {} (some 0), Call.start, Call.stop]).results
      = [some false, some true, none]
    ∧ openedHandles (Run.steps coreInitFailsEnv (Run.begin createSingBoxEngine)
      [Call.init {} (some 0), Call.start, Call.stop]).log = [(0, handle3)]
    ∧ closeTunCalls (Run.steps coreInitFailsEnv (Run.begin createSingBoxEngine)
      [Call.init {} (some 0), Call.start, Call.stop]).log = [(0, handle3), (0, handle3)] := by
  decide

end engine

end vpnclient_engine
